import Mathlib

/-!
Verification of the SCONE TFRecord extraction tools (`extract_tfrecord_info.py`).

The per-event feature-extraction engine is embedded shallowly: numpy float64
grids become `List (List ℚ)`, the NaN "undefined" sentinel becomes `Option ℚ`
(`none` = NaN), and the only square roots taken by the code are modelled with
`Real.sqrt`.  Byte payload decoding is parametrised by an abstract 8-byte to
float map `decodeF64`, since the claims under verification never depend on the
IEEE754 bit-level decode, only on the framing and layout.
-/

set_option maxHeartbeats 1000000
set_option maxRecDepth 100000

namespace SconeTools

/-- Configuration constants of the scripts (NUM_WAVELENGTH_BINS, NUM_MJD_BINS,
WAVELENGTH_MIN/MAX, MJD_RANGE_START/END). -/
structure Config where
  W : Nat
  T : Nat
  wmin : ℚ
  wmax : ℚ
  tstart : ℚ
  tend : ℚ
deriving DecidableEq

/-- The constants fixed at the top of `extract_tfrecord_info.py`. -/
def sconeConfig : Config :=
  { W := 32, T := 180, wmin := 3000, wmax := 10100, tstart := -50, tend := 130 }

/-- A 2-D float grid, wavelength-major: `g[w][t]`. -/
abbrev Grid := List (List ℚ)

/-- `np.linspace a b n`: `n` evenly spaced values from `a` to `b` inclusive. -/
def linspace (a b : ℚ) (n : Nat) : List ℚ :=
  if n ≤ 1 then List.replicate n a
  else (List.range n).map (fun i : Nat => a + (i : ℚ) * (b - a) / ((n : ℚ) - 1))

/-- `get_wavelength_array`: wavelength bin centers. -/
def get_wavelength_array (cfg : Config) : List ℚ :=
  linspace cfg.wmin cfg.wmax cfg.W

/-- `get_mjd_array`: MJD bin centers in days relative to peak. -/
def get_mjd_array (cfg : Config) : List ℚ :=
  linspace cfg.tstart cfg.tend cfg.T

/-- `np.max` over a 1-D array (0 on the empty list, which numpy rejects). -/
def listMax : List ℚ → ℚ
  | [] => 0
  | x :: xs => xs.foldl max x

/-- Scanning helper for `argmaxIdx`: carries best index, next index, best value.
The best is replaced only on a strict increase, matching numpy argmax. -/
def argmaxAux : Nat → Nat → ℚ → List ℚ → Nat
  | bi, _, _, [] => bi
  | bi, i, bv, x :: xs =>
      if bv < x then argmaxAux i (i + 1) x xs else argmaxAux bi (i + 1) bv xs

/-- `np.argmax` over a 1-D array: the first index attaining the maximum. -/
def argmaxIdx : List ℚ → Nat
  | [] => 0
  | x :: xs => argmaxAux 0 1 x xs

/-- Scanning helper for `argminIdx`. -/
def argminAux : Nat → Nat → ℚ → List ℚ → Nat
  | bi, _, _, [] => bi
  | bi, i, bv, x :: xs =>
      if x < bv then argminAux i (i + 1) x xs else argminAux bi (i + 1) bv xs

/-- `np.argmin` over a 1-D array: the first index attaining the minimum. -/
def argminIdx : List ℚ → Nat
  | [] => 0
  | x :: xs => argminAux 0 1 x xs

/-- `np.mean` (0 on the empty list; numpy yields NaN there, a case never
reached by the guarded call sites). -/
def mean (l : List ℚ) : ℚ := l.sum / l.length

/-- `np.median`: middle of the sorted data, or mean of the two middles. -/
def median (l : List ℚ) : ℚ :=
  let s := l.mergeSort (fun a b => decide (a ≤ b))
  if l.length % 2 = 1 then s.getD (l.length / 2) 0
  else (s.getD (l.length / 2 - 1) 0 + s.getD (l.length / 2) 0) / 2

/-- Entry `g[w][t]` of a grid (0 out of bounds). -/
def gridGet (g : Grid) (w t : Nat) : ℚ := (g.getD w []).getD t 0

/-- A grid has the configured `(W, T)` shape. -/
def WFGrid (cfg : Config) (g : Grid) : Prop :=
  g.length = cfg.W ∧ ∀ row ∈ g, row.length = cfg.T

instance (cfg : Config) (g : Grid) : Decidable (WFGrid cfg g) := by
  unfold WFGrid; infer_instance

/-- `light_curve = np.sum(flux, axis=0)`: flux summed over wavelengths. -/
def lightCurve (T : Nat) (g : Grid) : List ℚ :=
  (List.range T).map (fun t => (g.map (fun row => row.getD t 0)).sum)

/-- `snr = np.where(flux_err > 0, flux / flux_err, 0)`. -/
def snrGrid (flux flux_err : Grid) : Grid :=
  List.zipWith
    (fun fr er => List.zipWith (fun f e => if 0 < e then f / e else 0) fr er)
    flux flux_err

/-- `peak_start_idx = np.argmin(np.abs(mjd_array - (-10)))`. -/
def peakStartIdx (cfg : Config) : Nat :=
  argminIdx ((get_mjd_array cfg).map (fun x => |x - (-10)|))

/-- `peak_end_idx = np.argmin(np.abs(mjd_array - 20))`. -/
def peakEndIdx (cfg : Config) : Nat :=
  argminIdx ((get_mjd_array cfg).map (fun x => |x - 20|))

/-- `peak_spectrum = np.mean(flux[:, peak_start_idx:peak_end_idx], axis=1)`. -/
def peakSpectrum (cfg : Config) (flux : Grid) : List ℚ :=
  flux.map (fun row =>
    mean ((row.drop (peakStartIdx cfg)).take (peakEndIdx cfg - peakStartIdx cfg)))

/-- `above_half = light_curve > half_max` as the list of indices where it
holds (`np.where(above_half)[0]`). -/
def aboveHalfIdxs (cfg : Config) (flux : Grid) : List Nat :=
  let lc := lightCurve cfg.T flux
  let half_max := listMax lc / 2
  (List.range cfg.T).filter (fun t => decide (half_max < lc.getD t 0))

/-- The (rise_time_days, decline_time_days, duration_days) triple: defined
from the first and last half-max crossing when one exists, NaN (`none`)
otherwise. -/
def riseDeclineDuration (cfg : Config) (flux : Grid) :
    Option ℚ × Option ℚ × Option ℚ :=
  let mjds := get_mjd_array cfg
  let peak_idx := argmaxIdx (lightCurve cfg.T flux)
  match (aboveHalfIdxs cfg flux).head?, (aboveHalfIdxs cfg flux).getLast? with
  | some fIdx, some lIdx =>
      (some (mjds.getD peak_idx 0 - mjds.getD fIdx 0),
       some (mjds.getD lIdx 0 - mjds.getD peak_idx 0),
       some (mjds.getD lIdx 0 - mjds.getD fIdx 0))
  | _, _ => (none, none, none)

/-- `blue_idx = (wavelengths >= 3000) & (wavelengths <= 5000)` as an index
list. -/
def blueIdxs (cfg : Config) : List Nat :=
  let wavelengths := get_wavelength_array cfg
  (List.range cfg.W).filter
    (fun w => decide (3000 ≤ wavelengths.getD w 0 ∧ wavelengths.getD w 0 ≤ 5000))

/-- `red_idx = (wavelengths >= 6000) & (wavelengths <= 10000)` as an index
list. -/
def redIdxs (cfg : Config) : List Nat :=
  let wavelengths := get_wavelength_array cfg
  (List.range cfg.W).filter
    (fun w => decide (6000 ≤ wavelengths.getD w 0 ∧ wavelengths.getD w 0 ≤ 10000))

/-- The (blue_flux, red_flux, color_ratio) triple: all NaN (`none`) when a
band is empty; the ratio alone NaN when `red_flux ≤ 0`. -/
def colorFeatures (cfg : Config) (flux : Grid) :
    Option ℚ × Option ℚ × Option ℚ :=
  let lc := lightCurve cfg.T flux
  if blueIdxs cfg ≠ [] ∧ redIdxs cfg ≠ [] then
    let blueBand := (List.range cfg.T).map
      (fun t => ((blueIdxs cfg).map (fun w => gridGet flux w t)).sum)
    let redBand := (List.range cfg.T).map
      (fun t => ((redIdxs cfg).map (fun w => gridGet flux w t)).sum)
    let blueVal := (List.zipWith (fun a b => a * b) lc blueBand).sum
    let redVal := (List.zipWith (fun a b => a * b) lc redBand).sum
    (some blueVal, some redVal, if 0 < redVal then some (blueVal / redVal) else none)
  else (none, none, none)

/-- `snr[snr > 0]`: the strictly positive entries of the snr grid, in
row-major order. -/
def snrPositives (flux flux_err : Grid) : List ℚ :=
  (snrGrid flux flux_err).flatten.filter (fun x => decide (0 < x))

/-- The numeric fields of the summary row built by `extract_summary_statistics`.
The metadata pass-through fields (snid, label, label_name, redshift,
redshift_err) and `std_flux` (the one field needing a square root, touched by
no claim) are left out of the embedded schema. -/
structure SummaryInfo where
  total_flux : ℚ
  max_flux : ℚ
  mean_flux : ℚ
  median_flux : ℚ
  peak_flux_wavelength_idx : Nat
  peak_flux_mjd_idx : Nat
  peak_flux_wavelength : ℚ
  peak_flux_mjd : ℚ
  lc_max : ℚ
  lc_mean : ℚ
  lc_peak_mjd_idx : Nat
  lc_peak_mjd : ℚ
  flux_before_peak : ℚ
  flux_after_peak : ℚ
  rise_time_days : Option ℚ
  decline_time_days : Option ℚ
  duration_days : Option ℚ
  spectrum_max : ℚ
  spectrum_mean : ℚ
  spectrum_peak_wavelength_idx : Nat
  spectrum_peak_wavelength : ℚ
  blue_flux : Option ℚ
  red_flux : Option ℚ
  color_ratio : Option ℚ
  snr_mean : ℚ
  snr_median : ℚ
  snr_max : ℚ
  snr_peak : ℚ
  num_nonzero_bins : Nat
  coverage_fraction : ℚ
  num_epochs_with_data : Nat
  temporal_coverage_fraction : ℚ
  num_wavelengths_with_data : Nat
  spectral_coverage_fraction : ℚ
deriving DecidableEq

/-- `extract_summary_statistics`: the Feature Reducer, one decoded record to
one summary row.  NaN sentinels become `none`. -/
def extract_summary_statistics (cfg : Config) (flux flux_err : Grid) : SummaryInfo :=
  let wavelengths := get_wavelength_array cfg
  let mjds := get_mjd_array cfg
  let flat := flux.flatten
  let peakFlat := argmaxIdx flat
  let pw := peakFlat / cfg.T
  let pt := peakFlat % cfg.T
  let lc := lightCurve cfg.T flux
  let peak_idx := argmaxIdx lc
  let lcMax := listMax lc
  let spectrum := peakSpectrum cfg flux
  let snr := snrGrid flux flux_err
  let snrPos := snrPositives flux flux_err
  let nonzero := flux.flatten.filter (fun x => decide (0 < x))
  let hasDataT := (List.range cfg.T).filter
    (fun t => (flux.map (fun row => row.getD t 0)).any (fun x => decide (0 < x)))
  let hasDataW := flux.filter (fun row => row.any (fun x => decide (0 < x)))
  { total_flux := flat.sum
    max_flux := listMax flat
    mean_flux := mean flat
    median_flux := median flat
    peak_flux_wavelength_idx := pw
    peak_flux_mjd_idx := pt
    peak_flux_wavelength := wavelengths.getD pw 0
    peak_flux_mjd := mjds.getD pt 0
    lc_max := lcMax
    lc_mean := mean lc
    lc_peak_mjd_idx := peak_idx
    lc_peak_mjd := mjds.getD peak_idx 0
    flux_before_peak := if 0 < peak_idx then (lc.take peak_idx).sum else 0
    flux_after_peak := if peak_idx < lc.length then (lc.drop peak_idx).sum else 0
    rise_time_days := (riseDeclineDuration cfg flux).1
    decline_time_days := (riseDeclineDuration cfg flux).2.1
    duration_days := (riseDeclineDuration cfg flux).2.2
    spectrum_max := listMax spectrum
    spectrum_mean := mean spectrum
    spectrum_peak_wavelength_idx := argmaxIdx spectrum
    spectrum_peak_wavelength := wavelengths.getD (argmaxIdx spectrum) 0
    blue_flux := (colorFeatures cfg flux).1
    red_flux := (colorFeatures cfg flux).2.1
    color_ratio := (colorFeatures cfg flux).2.2
    snr_mean := if snrPos ≠ [] then mean snrPos else 0
    snr_median := if snrPos ≠ [] then median snrPos else 0
    snr_max := listMax snr.flatten
    snr_peak := gridGet snr pw pt
    num_nonzero_bins := nonzero.length
    coverage_fraction := (nonzero.length : ℚ) / ((cfg.W * cfg.T : Nat) : ℚ)
    num_epochs_with_data := hasDataT.length
    temporal_coverage_fraction := (hasDataT.length : ℚ) / (cfg.T : ℚ)
    num_wavelengths_with_data := hasDataW.length
    spectral_coverage_fraction := (hasDataW.length : ℚ) / (flux.length : ℚ) }

/-- A raw input record: the five required TFRecord fields, each possibly
missing, with `image_raw` an uninterpreted byte payload. -/
structure RawRecord where
  label : Option Int
  image_raw : Option (List Nat)
  id : Option Int
  z : Option ℚ
  z_err : Option ℚ
deriving DecidableEq

/-- The default (fully missing) raw record, used as a `getD` fallback. -/
def defaultRawRecord : RawRecord := ⟨none, none, none, none, none⟩

/-- A decoded record as returned by `parse_tfrecord`. -/
structure ParsedRecord where
  id : Int
  label : Int
  z : ℚ
  z_err : ℚ
  flux : Grid
  flux_err : Grid
deriving DecidableEq

/-- Channel `c` (0 = flux, 1 = flux error) of the row-major,
channel-interleaved float64 payload of shape `(W, T, 2)`, decoded through
the abstract 8-byte float reader `decodeF64`. -/
def decodeChannel (cfg : Config) (decodeF64 : List Nat → ℚ) (bytes : List Nat)
    (c : Nat) : Grid :=
  (List.range cfg.W).map (fun w =>
    (List.range cfg.T).map (fun t =>
      decodeF64 ((bytes.drop (((w * cfg.T + t) * 2 + c) * 8)).take 8)))

/-- `parse_tfrecord`: all five required fields must be present and the
payload must hold exactly `W*T*2` float64 values (`W*T*2*8` bytes); anything
else is a fatal decode error for the record. -/
def parse_tfrecord (cfg : Config) (decodeF64 : List Nat → ℚ) (r : RawRecord) :
    Except String ParsedRecord :=
  match r.label, r.image_raw, r.id, r.z, r.z_err with
  | some label, some bytes, some id, some z, some z_err =>
      if bytes.length = cfg.W * cfg.T * 2 * 8 then
        Except.ok
          { id := id, label := label, z := z, z_err := z_err,
            flux := decodeChannel cfg decodeF64 bytes 0,
            flux_err := decodeChannel cfg decodeF64 bytes 1 }
      else Except.error "image_raw payload length mismatch"
  | _, _, _, _, _ => Except.error "missing required feature field"

/-- `extract_lightcurve`: one (mjd, flux, flux_err) triple per time bin,
with the error summed in quadrature over wavelengths, keyed by the id. -/
noncomputable def extract_lightcurve (cfg : Config) (d : ParsedRecord) :
    Int × List (ℚ × ℚ × ℝ) :=
  let light_curve := lightCurve cfg.T d.flux
  let light_curve_err : List ℝ :=
    (List.range cfg.T).map (fun t =>
      Real.sqrt (((d.flux_err.map (fun row => row.getD t 0 ^ 2)).sum : ℚ) : ℝ))
  let mjds := get_mjd_array cfg
  (d.id, (mjds.zip (light_curve.zip light_curve_err)).map (fun p => (p.1, p.2.1, p.2.2)))

/-- `extract_spectrum`: one (wavelength, flux, flux_err) triple per
wavelength bin; the flux is the peak-phase time average and the error is, as
the source computes it, `np.sqrt(np.mean(flux_err[:, s:e]**2, axis=1))` —
the square root of the MEAN of the squared errors over the window. -/
noncomputable def extract_spectrum (cfg : Config) (d : ParsedRecord) :
    Int × List (ℚ × ℚ × ℝ) :=
  let s := peakStartIdx cfg
  let e := peakEndIdx cfg
  let spectrum := peakSpectrum cfg d.flux
  let spectrum_err : List ℝ :=
    d.flux_err.map (fun row =>
      Real.sqrt ((mean (((row.drop s).take (e - s)).map (fun x => x ^ 2)) : ℚ) : ℝ))
  let wavelengths := get_wavelength_array cfg
  (d.id, (wavelengths.zip (spectrum.zip spectrum_err)).map (fun p => (p.1, p.2.1, p.2.2)))

/-- `if limit: dataset = dataset.take(limit)` — Python truthiness, so both
`None` and `0` leave the dataset uncapped. -/
def takeLimit (limit : Option Nat) (l : List RawRecord) : List RawRecord :=
  match limit with
  | none => l
  | some 0 => l
  | some (n + 1) => l.take (n + 1)

/-- The record loop of `process_tfrecord`: decode, reduce, optionally
project, stopping hard at the first failing record (there is no
skip-and-continue in the source). -/
noncomputable def processLoop (cfg : Config) (decodeF64 : List Nat → ℚ)
    (full_lightcurves full_spectra : Bool) :
    List RawRecord →
      Except String
        (List SummaryInfo × List (Int × List (ℚ × ℚ × ℝ)) × List (Int × List (ℚ × ℚ × ℝ)))
  | [] => Except.ok ([], [], [])
  | r :: rs =>
      match parse_tfrecord cfg decodeF64 r with
      | Except.error msg => Except.error msg
      | Except.ok d =>
          match processLoop cfg decodeF64 full_lightcurves full_spectra rs with
          | Except.error msg => Except.error msg
          | Except.ok (s, lcs, sps) =>
              Except.ok (extract_summary_statistics cfg d.flux d.flux_err :: s,
                if full_lightcurves then extract_lightcurve cfg d :: lcs else lcs,
                if full_spectra then extract_spectrum cfg d :: sps else sps)

/-- `process_tfrecord`: the Batch Driver over an in-order record stream. -/
noncomputable def process_tfrecord (cfg : Config) (decodeF64 : List Nat → ℚ)
    (records : List RawRecord) (full_lightcurves full_spectra : Bool)
    (limit : Option Nat) :
    Except String
      (List SummaryInfo × List (Int × List (ℚ × ℚ × ℝ)) × List (Int × List (ℚ × ℚ × ℝ))) :=
  processLoop cfg decodeF64 full_lightcurves full_spectra (takeLimit limit records)

/-! Basic lemmas about `listMax`, `argmaxIdx` and `argminIdx`. -/

theorem le_foldl_max (xs : List ℚ) (a : ℚ) : a ≤ xs.foldl max a := by
  induction xs generalizing a with
  | nil => exact le_refl a
  | cons x xs ih => exact le_trans (le_max_left a x) (ih (max a x))

theorem mem_le_foldl_max (xs : List ℚ) (a b : ℚ) (h : b ∈ xs) : b ≤ xs.foldl max a := by
  induction xs generalizing a with
  | nil => cases h
  | cons x xs ih =>
      rcases List.mem_cons.mp h with rfl | hb
      · exact le_trans (le_max_right a b) (le_foldl_max xs (max a b))
      · exact ih (max a x) hb

theorem foldl_max_choice (xs : List ℚ) (a : ℚ) :
    xs.foldl max a = a ∨ xs.foldl max a ∈ xs := by
  induction xs generalizing a with
  | nil => exact Or.inl rfl
  | cons x xs ih =>
      rcases ih (max a x) with h | h
      · rcases max_cases a x with ⟨he, _⟩ | ⟨he, _⟩
        · exact Or.inl (by rw [List.foldl_cons, h, he])
        · exact Or.inr (by rw [List.foldl_cons, h, he]; exact List.mem_cons_self x xs)
      · exact Or.inr (List.mem_cons_of_mem x h)

theorem foldl_max_of_le (xs : List ℚ) (a : ℚ) (h : ∀ b ∈ xs, b ≤ a) :
    xs.foldl max a = a := by
  rcases foldl_max_choice xs a with hc | hc
  · exact hc
  · exact le_antisymm (h _ hc) (le_foldl_max xs a)

theorem foldl_max_cons (xs : List ℚ) (a : ℚ) (h : xs ≠ []) :
    xs.foldl max a = max a (listMax xs) := by
  induction xs generalizing a with
  | nil => exact absurd rfl h
  | cons y ys ih =>
      by_cases hy : ys = []
      · subst hy; simp [listMax]
      · show List.foldl max (max a y) ys = max a (listMax (y :: ys))
        rw [ih (max a y) hy, max_assoc]
        have hthis : listMax (y :: ys) = max y (listMax ys) := by
          show List.foldl max y ys = max y (listMax ys)
          exact ih y hy
        rw [hthis]

theorem le_listMax (l : List ℚ) (b : ℚ) (h : b ∈ l) : b ≤ listMax l := by
  cases l with
  | nil => cases h
  | cons x xs =>
      rcases List.mem_cons.mp h with rfl | hb
      · exact le_foldl_max xs b
      · exact mem_le_foldl_max xs x b hb

theorem listMax_mem (l : List ℚ) (h : l ≠ []) : listMax l ∈ l := by
  cases l with
  | nil => exact absurd rfl h
  | cons x xs =>
      rcases foldl_max_choice xs x with hc | hc
      · rw [listMax, hc]; exact List.mem_cons_self x xs
      · exact List.mem_cons_of_mem x hc

theorem getD_le_listMax (l : List ℚ) (j : Nat) (hj : j < l.length) :
    l.getD j 0 ≤ listMax l := by
  rw [List.getD_eq_getElem l 0 hj]
  exact le_listMax l _ (List.getElem_mem hj)

theorem argmaxAux_of_le (xs : List ℚ) (bi i : Nat) (bv : ℚ)
    (h : ∀ j < xs.length, xs.getD j 0 ≤ bv) : argmaxAux bi i bv xs = bi := by
  induction xs generalizing bi i bv with
  | nil => rfl
  | cons x xs ih =>
      have hx : x ≤ bv := by simpa using h 0 (by simp)
      rw [argmaxAux, if_neg (not_lt.mpr hx)]
      exact ih bi (i + 1) bv (fun j hj => by simpa using h (j + 1) (by simpa using hj))

theorem argmaxAux_of_first (xs : List ℚ) (bi i : Nat) (bv : ℚ) (k : Nat)
    (hk : k < xs.length) (hgt : bv < xs.getD k 0)
    (hmax : ∀ j < xs.length, xs.getD j 0 ≤ xs.getD k 0)
    (hfirst : ∀ j < k, xs.getD j 0 < xs.getD k 0) :
    argmaxAux bi i bv xs = i + k := by
  induction xs generalizing bi i bv k with
  | nil => exact absurd hk (by simp)
  | cons y ys ih =>
      cases k with
      | zero =>
          have hy : bv < y := by simpa using hgt
          rw [argmaxAux, if_pos hy]
          have := argmaxAux_of_le ys i (i + 1) y
            (fun j hj => by simpa using hmax (j + 1) (by simpa using hj))
          omega
      | succ k' =>
          have hk' : k' < ys.length := by simpa using hk
          have hyk : y < ys.getD k' 0 := by simpa using hfirst 0 (Nat.succ_pos k')
          have hgt' : (y :: ys).getD (k' + 1) 0 = ys.getD k' 0 := by simp
          have hmax' : ∀ j < ys.length, ys.getD j 0 ≤ ys.getD k' 0 := by
            intro j hj
            have := hmax (j + 1) (by simpa using hj)
            simpa using this
          have hfirst' : ∀ j < k', ys.getD j 0 < ys.getD k' 0 := by
            intro j hj
            have := hfirst (j + 1) (by omega)
            simpa using this
          by_cases hbv : bv < y
          · rw [argmaxAux, if_pos hbv]
            have := ih i (i + 1) y k' hk' hyk hmax' hfirst'
            omega
          · rw [argmaxAux, if_neg hbv]
            have hgt2 : bv < ys.getD k' 0 := by rw [← hgt']; exact hgt
            have := ih bi (i + 1) bv k' hk' hgt2 hmax' hfirst'
            omega

theorem exists_first_argmax (xs : List ℚ) (h : xs ≠ []) :
    ∃ k, k < xs.length ∧ xs.getD k 0 = listMax xs ∧
      ∀ j < k, xs.getD j 0 < listMax xs := by
  obtain ⟨n, hn, hval⟩ := List.mem_iff_getElem.mp (listMax_mem xs h)
  have hex : ∃ m, xs.getD m 0 = listMax xs ∧ m < xs.length :=
    ⟨n, by rw [List.getD_eq_getElem xs 0 hn]; exact hval, hn⟩
  classical
  obtain ⟨⟨hk1, hk2⟩, hkmin⟩ := Nat.find_spec hex, Nat.find_min hex
  refine ⟨Nat.find hex, hk2, hk1, ?_⟩
  intro j hj
  have hne := Nat.find_min hex hj
  have hle := getD_le_listMax xs j (lt_trans hj hk2)
  rcases lt_or_eq_of_le hle with hlt | heq
  · exact hlt
  · exact absurd ⟨heq, lt_trans hj hk2⟩ hne

theorem argmaxIdx_spec (l : List ℚ) (h : l ≠ []) :
    argmaxIdx l < l.length ∧ l.getD (argmaxIdx l) 0 = listMax l ∧
      ∀ j < argmaxIdx l, l.getD j 0 < listMax l := by
  cases l with
  | nil => exact absurd rfl h
  | cons x xs =>
      by_cases hc : ∀ j < xs.length, xs.getD j 0 ≤ x
      · have h0 : argmaxIdx (x :: xs) = 0 := argmaxAux_of_le xs 0 1 x hc
        have hmax : listMax (x :: xs) = x := by
          rw [listMax]
          refine foldl_max_of_le xs x (fun b hb => ?_)
          obtain ⟨n, hn, hval⟩ := List.mem_iff_getElem.mp hb
          have := hc n hn
          rwa [List.getD_eq_getElem xs 0 hn, hval] at this
        rw [h0, hmax]
        exact ⟨by simp, by simp, fun j hj => absurd hj (Nat.not_lt_zero j)⟩
      · push_neg at hc
        obtain ⟨j0, hj0, hxj0⟩ := hc
        have hxs : xs ≠ [] := by
          intro he; rw [he] at hj0; exact absurd hj0 (by simp)
        obtain ⟨k, hk, hkv, hkfirst⟩ := exists_first_argmax xs hxs
        have hxlt : x < listMax xs := lt_of_lt_of_le hxj0 (getD_le_listMax xs j0 hj0)
        have haux : argmaxAux 0 1 x xs = 1 + k := by
          refine argmaxAux_of_first xs 0 1 x k hk (by rw [hkv]; exact hxlt) ?_ ?_
          · intro j hj; rw [hkv]; exact getD_le_listMax xs j hj
          · intro j hj; rw [hkv]; exact hkfirst j hj
        have hIdx : argmaxIdx (x :: xs) = 1 + k := haux
        have hmax : listMax (x :: xs) = listMax xs := by
          rw [listMax, foldl_max_cons xs x hxs]
          exact max_eq_right hxlt.le
        rw [hIdx, hmax]
        refine ⟨by simp only [List.length_cons]; omega, ?_, ?_⟩
        · have : (1 : Nat) + k = k + 1 := by omega
          rw [this]; simpa using hkv
        · intro j hj
          cases j with
          | zero => simpa using hxlt
          | succ j' =>
              have : j' < k := by omega
              simpa using hkfirst j' this

theorem argmaxIdx_eq_of (l : List ℚ) (k : Nat) (hk : k < l.length)
    (hmax : ∀ j < l.length, l.getD j 0 ≤ l.getD k 0)
    (hfirst : ∀ j < k, l.getD j 0 < l.getD k 0) : argmaxIdx l = k := by
  have hne : l ≠ [] := by
    intro he; rw [he] at hk; exact absurd hk (by simp)
  obtain ⟨hm1, hm2, hm3⟩ := argmaxIdx_spec l hne
  have hkmax : l.getD k 0 = listMax l := by
    refine le_antisymm (getD_le_listMax l k hk) ?_
    rw [← hm2]; exact hmax (argmaxIdx l) hm1
  rcases Nat.lt_trichotomy (argmaxIdx l) k with hlt | heq | hgt
  · exact absurd hm2 (by rw [← hkmax]; exact ne_of_lt (hfirst (argmaxIdx l) hlt))
  · exact heq
  · exact absurd hkmax (ne_of_lt (hm3 k hgt))

theorem getD_map_neg (l : List ℚ) (j : Nat) :
    (l.map (fun x => -x)).getD j 0 = -(l.getD j 0) := by
  by_cases hj : j < l.length
  · rw [List.getD_eq_getElem l 0 hj,
      List.getD_eq_getElem _ 0 (by simpa using hj), List.getElem_map]
  · rw [List.getD_eq_default l 0 (by omega),
      List.getD_eq_default _ 0 (by simpa using hj)]
    simp

theorem argminAux_eq_argmaxAux_neg (xs : List ℚ) (bi i : Nat) (bv : ℚ) :
    argminAux bi i bv xs = argmaxAux bi i (-bv) (xs.map (fun x => -x)) := by
  induction xs generalizing bi i bv with
  | nil => rfl
  | cons x xs ih =>
      rw [List.map_cons, argminAux, argmaxAux]
      by_cases hc : x < bv
      · rw [if_pos hc, if_pos (by simpa using hc), ih]
      · rw [if_neg hc, if_neg (by simpa using hc), ih]

theorem argminIdx_eq_argmaxIdx_neg (l : List ℚ) :
    argminIdx l = argmaxIdx (l.map (fun x => -x)) := by
  cases l with
  | nil => rfl
  | cons x xs => exact argminAux_eq_argmaxAux_neg xs 0 1 x

theorem filter_range_head (p : Nat → Bool) (T n : Nat) (hn : n < T) (hp : p n = true)
    (hmin : ∀ s < n, p s = false) :
    ((List.range T).filter p).head? = some n := by
  have hT : T = (n + 1) + (T - (n + 1)) := by omega
  rw [hT, List.range_add, List.filter_append]
  have e1 : List.range (n + 1) = List.range n ++ [n] := by
    simpa using List.range_succ n
  rw [e1, List.filter_append]
  have h1 : (List.range n).filter p = [] := by
    refine List.filter_eq_nil_iff.mpr ?_
    intro a ha
    simp only [List.mem_range] at ha
    simp [hmin a ha]
  have h2 : [n].filter p = [n] := by simp [hp]
  rw [h1, h2]
  simp

theorem filter_range_getLast (p : Nat → Bool) (T n : Nat) (hn : n < T) (hp : p n = true)
    (hmax : ∀ s, n < s → s < T → p s = false) :
    ((List.range T).filter p).getLast? = some n := by
  have hT : T = (n + 1) + (T - (n + 1)) := by omega
  rw [hT, List.range_add, List.filter_append]
  have h2 : ((List.range (T - (n + 1))).map (fun x => (n + 1) + x)).filter p = [] := by
    refine List.filter_eq_nil_iff.mpr ?_
    intro a ha
    simp only [List.mem_map, List.mem_range] at ha
    obtain ⟨x, hx, rfl⟩ := ha
    simp [hmax (n + 1 + x) (by omega) (by omega)]
  have e1 : List.range (n + 1) = List.range n ++ [n] := by
    simpa using List.range_succ n
  rw [h2, List.append_nil, e1, List.filter_append]
  have h3 : [n].filter p = [n] := by simp [hp]
  rw [h3]
  simp

theorem filter_range_nil (p : Nat → Bool) (T : Nat) (h : ∀ s < T, p s = false) :
    (List.range T).filter p = [] := by
  refine List.filter_eq_nil_iff.mpr ?_
  intro a ha
  simp only [List.mem_range] at ha
  simp [h a ha]

theorem linspace_length (a b : ℚ) (n : Nat) : (linspace a b n).length = n := by
  unfold linspace
  by_cases h : n ≤ 1
  · rw [if_pos h, List.length_replicate]
  · rw [if_neg h, List.length_map, List.length_range]

theorem lightCurve_length (T : Nat) (g : Grid) : (lightCurve T g).length = T := by
  simp [lightCurve]

theorem lightCurve_getD (T : Nat) (g : Grid) (t : Nat) (ht : t < T) :
    (lightCurve T g).getD t 0 = (g.map (fun row => row.getD t 0)).sum := by
  rw [lightCurve, List.getD_eq_getElem _ 0 (by simpa using ht), List.getElem_map,
    List.getElem_range]

theorem WFGrid.flatten_length (cfg : Config) (g : Grid) (h : WFGrid cfg g) :
    g.flatten.length = cfg.W * cfg.T := by
  obtain ⟨hW, hrows⟩ := h
  rw [List.length_flatten]
  have hmap : g.map List.length = List.replicate g.length cfg.T := by
    refine List.eq_replicate_iff.mpr ⟨by simp, ?_⟩
    intro b hb
    simp only [List.mem_map] at hb
    obtain ⟨row, hrow, rfl⟩ := hb
    exact hrows row hrow
  rw [hmap, List.sum_replicate, smul_eq_mul, hW, Nat.mul_comm]

theorem snrGrid_WF (cfg : Config) (flux flux_err : Grid)
    (hf : WFGrid cfg flux) (he : WFGrid cfg flux_err) :
    WFGrid cfg (snrGrid flux flux_err) := by
  obtain ⟨hfW, hfrows⟩ := hf
  obtain ⟨heW, herows⟩ := he
  constructor
  · simp [snrGrid, hfW, heW]
  · intro row hrow
    obtain ⟨i, hi, hval⟩ := List.mem_iff_getElem.mp hrow
    have hlen : (snrGrid flux flux_err).length = cfg.W := by simp [snrGrid, hfW, heW]
    have hiW : i < cfg.W := by rw [← hlen]; exact hi
    have hif : i < flux.length := by omega
    have hie : i < flux_err.length := by omega
    have hrw : (snrGrid flux flux_err)[i] =
        List.zipWith (fun f e => if 0 < e then f / e else 0) flux[i] flux_err[i] := by
      simp [snrGrid, List.getElem_zipWith]
    rw [← hval, hrw, List.length_zipWith,
      hfrows _ (List.getElem_mem hif), herows _ (List.getElem_mem hie), Nat.min_self]

theorem argminIdx_eq_of (l : List ℚ) (k : Nat) (hk : k < l.length)
    (hmin : ∀ j < l.length, l.getD k 0 ≤ l.getD j 0)
    (hfirst : ∀ j < k, l.getD k 0 < l.getD j 0) : argminIdx l = k := by
  rw [argminIdx_eq_argmaxIdx_neg]
  refine argmaxIdx_eq_of _ k (by simpa using hk) ?_ ?_
  · intro j hj
    rw [getD_map_neg, getD_map_neg]
    exact neg_le_neg (hmin j (by simpa using hj))
  · intro j hj
    rw [getD_map_neg, getD_map_neg]
    exact neg_lt_neg (hfirst j hj)

/-! Projection equations for `extract_summary_statistics`; each holds by
unfolding the definition. -/

theorem extract_rise_eq (cfg : Config) (flux flux_err : Grid) :
    (extract_summary_statistics cfg flux flux_err).rise_time_days =
      (riseDeclineDuration cfg flux).1 := rfl

theorem extract_decline_eq (cfg : Config) (flux flux_err : Grid) :
    (extract_summary_statistics cfg flux flux_err).decline_time_days =
      (riseDeclineDuration cfg flux).2.1 := rfl

theorem extract_duration_eq (cfg : Config) (flux flux_err : Grid) :
    (extract_summary_statistics cfg flux flux_err).duration_days =
      (riseDeclineDuration cfg flux).2.2 := rfl

theorem extract_lc_peak_eq (cfg : Config) (flux flux_err : Grid) :
    (extract_summary_statistics cfg flux flux_err).lc_peak_mjd_idx =
      argmaxIdx (lightCurve cfg.T flux) := rfl

theorem extract_before_eq (cfg : Config) (flux flux_err : Grid) :
    (extract_summary_statistics cfg flux flux_err).flux_before_peak =
      if 0 < argmaxIdx (lightCurve cfg.T flux)
      then ((lightCurve cfg.T flux).take (argmaxIdx (lightCurve cfg.T flux))).sum
      else 0 := rfl

theorem extract_after_eq (cfg : Config) (flux flux_err : Grid) :
    (extract_summary_statistics cfg flux flux_err).flux_after_peak =
      if argmaxIdx (lightCurve cfg.T flux) < (lightCurve cfg.T flux).length
      then ((lightCurve cfg.T flux).drop (argmaxIdx (lightCurve cfg.T flux))).sum
      else 0 := rfl

theorem extract_blue_eq (cfg : Config) (flux flux_err : Grid) :
    (extract_summary_statistics cfg flux flux_err).blue_flux =
      (colorFeatures cfg flux).1 := rfl

theorem extract_red_eq (cfg : Config) (flux flux_err : Grid) :
    (extract_summary_statistics cfg flux flux_err).red_flux =
      (colorFeatures cfg flux).2.1 := rfl

theorem extract_color_eq (cfg : Config) (flux flux_err : Grid) :
    SummaryInfo.color_ratio (extract_summary_statistics cfg flux flux_err) =
      (colorFeatures cfg flux).2.2 := rfl

theorem extract_snr_mean_eq (cfg : Config) (flux flux_err : Grid) :
    (extract_summary_statistics cfg flux flux_err).snr_mean =
      if snrPositives flux flux_err ≠ [] then mean (snrPositives flux flux_err)
      else 0 := rfl

theorem extract_snr_median_eq (cfg : Config) (flux flux_err : Grid) :
    (extract_summary_statistics cfg flux flux_err).snr_median =
      if snrPositives flux flux_err ≠ [] then median (snrPositives flux flux_err)
      else 0 := rfl

theorem extract_snr_max_eq (cfg : Config) (flux flux_err : Grid) :
    (extract_summary_statistics cfg flux flux_err).snr_max =
      listMax (snrGrid flux flux_err).flatten := rfl

theorem extract_snr_peak_eq (cfg : Config) (flux flux_err : Grid) :
    (extract_summary_statistics cfg flux flux_err).snr_peak =
      gridGet (snrGrid flux flux_err) (argmaxIdx flux.flatten / cfg.T)
        (argmaxIdx flux.flatten % cfg.T) := rfl

theorem extract_peak_w_eq (cfg : Config) (flux flux_err : Grid) :
    (extract_summary_statistics cfg flux flux_err).peak_flux_wavelength_idx =
      argmaxIdx flux.flatten / cfg.T := rfl

theorem extract_peak_t_eq (cfg : Config) (flux flux_err : Grid) :
    (extract_summary_statistics cfg flux flux_err).peak_flux_mjd_idx =
      argmaxIdx flux.flatten % cfg.T := rfl

theorem extract_spectrum_peak_eq (cfg : Config) (flux flux_err : Grid) :
    (extract_summary_statistics cfg flux flux_err).spectrum_peak_wavelength_idx =
      argmaxIdx (peakSpectrum cfg flux) := rfl

/-! Concrete inputs shared by the witnesses: the `W=4, T=5` scenario grid
with a single nonzero flux entry `flux[2][3] = 10` and all-zero errors. -/

def cfg45 : Config :=
  { W := 4, T := 5, wmin := 3000, wmax := 10100, tstart := -50, tend := 130 }

def flux45 : Grid :=
  [[0, 0, 0, 0, 0], [0, 0, 0, 0, 0], [0, 0, 0, 10, 0], [0, 0, 0, 0, 0]]

def err45 : Grid :=
  [[0, 0, 0, 0, 0], [0, 0, 0, 0, 0], [0, 0, 0, 0, 0], [0, 0, 0, 0, 0]]

theorem lightCurve45 : lightCurve cfg45.T flux45 = [0, 0, 0, 10, 0] := by
  have h5 : List.range 5 = [0, 1, 2, 3, 4] := by decide
  show lightCurve 5 flux45 = [0, 0, 0, 10, 0]
  rw [lightCurve, h5]
  norm_num [flux45]

theorem lightCurve_ne_nil (cfg : Config) (flux : Grid) (hT : 0 < cfg.T) :
    lightCurve cfg.T flux ≠ [] := by
  intro h
  have := lightCurve_length cfg.T flux
  rw [h] at this
  simp at this
  omega

/-- C3: for every decoded record, `flux_before_peak` is the sum of the light
curve strictly before the light-curve peak index, `flux_after_peak` the sum
from the peak index to the end (the peak bin counted there, once), and the
two add up to the sum of the full light curve. -/
theorem peak_partition_spec (cfg : Config) (flux flux_err : Grid) (hT : 0 < cfg.T) :
    (extract_summary_statistics cfg flux flux_err).flux_before_peak +
        (extract_summary_statistics cfg flux flux_err).flux_after_peak =
      (lightCurve cfg.T flux).sum ∧
    (extract_summary_statistics cfg flux flux_err).flux_before_peak =
      ((lightCurve cfg.T flux).take
        (extract_summary_statistics cfg flux flux_err).lc_peak_mjd_idx).sum ∧
    (extract_summary_statistics cfg flux flux_err).flux_after_peak =
      ((lightCurve cfg.T flux).drop
        (extract_summary_statistics cfg flux flux_err).lc_peak_mjd_idx).sum := by
  have hne : lightCurve cfg.T flux ≠ [] := lightCurve_ne_nil cfg flux hT
  have hpk : argmaxIdx (lightCurve cfg.T flux) < (lightCurve cfg.T flux).length :=
    (argmaxIdx_spec _ hne).1
  have hb : (extract_summary_statistics cfg flux flux_err).flux_before_peak =
      ((lightCurve cfg.T flux).take (argmaxIdx (lightCurve cfg.T flux))).sum := by
    rw [extract_before_eq]
    by_cases h0 : 0 < argmaxIdx (lightCurve cfg.T flux)
    · rw [if_pos h0]
    · rw [if_neg h0]
      have hz : argmaxIdx (lightCurve cfg.T flux) = 0 := by omega
      rw [hz]
      simp
  have ha : (extract_summary_statistics cfg flux flux_err).flux_after_peak =
      ((lightCurve cfg.T flux).drop (argmaxIdx (lightCurve cfg.T flux))).sum := by
    rw [extract_after_eq, if_pos hpk]
  refine ⟨?_, by rw [hb, extract_lc_peak_eq], by rw [ha, extract_lc_peak_eq]⟩
  rw [hb, ha, ← List.sum_append, List.take_append_drop]

/-- C3 witness: the partition property evaluated on the `W=4, T=5` scenario
record. -/
theorem peak_partition_spec_witness :
    0 < cfg45.T ∧
    (extract_summary_statistics cfg45 flux45 err45).flux_before_peak +
        (extract_summary_statistics cfg45 flux45 err45).flux_after_peak =
      (lightCurve cfg45.T flux45).sum :=
  ⟨by norm_num [cfg45], (peak_partition_spec cfg45 flux45 err45 (by norm_num [cfg45])).1⟩

/-- C1: if no light-curve bin exceeds half of the light-curve maximum, the
rise/decline/duration features are all the NaN sentinel; otherwise, with
`fi` the first index above half-max and `li` the last, the features are
`mjds[peak] - mjds[fi]`, `mjds[li] - mjds[peak]` and `mjds[li] - mjds[fi]`
(negative values accepted as-is, nothing clamps them). -/
theorem rise_decline_duration_spec (cfg : Config) (flux flux_err : Grid)
    (hT : 0 < cfg.T) :
    ((∀ t < cfg.T,
        (lightCurve cfg.T flux).getD t 0 ≤ listMax (lightCurve cfg.T flux) / 2) →
      (extract_summary_statistics cfg flux flux_err).rise_time_days = none ∧
      (extract_summary_statistics cfg flux flux_err).decline_time_days = none ∧
      (extract_summary_statistics cfg flux flux_err).duration_days = none) ∧
    ∀ fi li : Nat,
      fi < cfg.T →
      listMax (lightCurve cfg.T flux) / 2 < (lightCurve cfg.T flux).getD fi 0 →
      (∀ s < fi,
        (lightCurve cfg.T flux).getD s 0 ≤ listMax (lightCurve cfg.T flux) / 2) →
      li < cfg.T →
      listMax (lightCurve cfg.T flux) / 2 < (lightCurve cfg.T flux).getD li 0 →
      (∀ s, li < s → s < cfg.T →
        (lightCurve cfg.T flux).getD s 0 ≤ listMax (lightCurve cfg.T flux) / 2) →
      (extract_summary_statistics cfg flux flux_err).rise_time_days =
        some ((get_mjd_array cfg).getD
            (extract_summary_statistics cfg flux flux_err).lc_peak_mjd_idx 0 -
          (get_mjd_array cfg).getD fi 0) ∧
      (extract_summary_statistics cfg flux flux_err).decline_time_days =
        some ((get_mjd_array cfg).getD li 0 -
          (get_mjd_array cfg).getD
            (extract_summary_statistics cfg flux flux_err).lc_peak_mjd_idx 0) ∧
      (extract_summary_statistics cfg flux flux_err).duration_days =
        some ((get_mjd_array cfg).getD li 0 - (get_mjd_array cfg).getD fi 0) := by
  constructor
  · intro hall
    have h0 : aboveHalfIdxs cfg flux = [] := by
      show (List.range cfg.T).filter
        (fun t => decide (listMax (lightCurve cfg.T flux) / 2 <
          (lightCurve cfg.T flux).getD t 0)) = []
      refine filter_range_nil _ _ (fun s hs => ?_)
      simp only [decide_eq_false_iff_not, not_lt]
      exact hall s hs
    have h1 : riseDeclineDuration cfg flux = (none, none, none) := by
      show (match (aboveHalfIdxs cfg flux).head?, (aboveHalfIdxs cfg flux).getLast? with
        | some fIdx, some lIdx =>
            (some ((get_mjd_array cfg).getD (argmaxIdx (lightCurve cfg.T flux)) 0 -
                (get_mjd_array cfg).getD fIdx 0),
             some ((get_mjd_array cfg).getD lIdx 0 -
                (get_mjd_array cfg).getD (argmaxIdx (lightCurve cfg.T flux)) 0),
             some ((get_mjd_array cfg).getD lIdx 0 - (get_mjd_array cfg).getD fIdx 0))
        | _, _ => (none, none, none)) = (none, none, none)
      rw [h0]
      rfl
    rw [extract_rise_eq, extract_decline_eq, extract_duration_eq, h1]
    exact ⟨rfl, rfl, rfl⟩
  · intro fi li hfi hfgt hfmin hli hlgt hlmax
    have hf : (aboveHalfIdxs cfg flux).head? = some fi := by
      show ((List.range cfg.T).filter
        (fun t => decide (listMax (lightCurve cfg.T flux) / 2 <
          (lightCurve cfg.T flux).getD t 0))).head? = some fi
      refine filter_range_head _ cfg.T fi hfi (by simpa using hfgt) (fun s hs => ?_)
      simp only [decide_eq_false_iff_not, not_lt]
      exact hfmin s hs
    have hl : (aboveHalfIdxs cfg flux).getLast? = some li := by
      show ((List.range cfg.T).filter
        (fun t => decide (listMax (lightCurve cfg.T flux) / 2 <
          (lightCurve cfg.T flux).getD t 0))).getLast? = some li
      refine filter_range_getLast _ cfg.T li hli (by simpa using hlgt)
        (fun s hs1 hs2 => ?_)
      simp only [decide_eq_false_iff_not, not_lt]
      exact hlmax s hs1 hs2
    have h1 : riseDeclineDuration cfg flux =
        (some ((get_mjd_array cfg).getD (argmaxIdx (lightCurve cfg.T flux)) 0 -
            (get_mjd_array cfg).getD fi 0),
         some ((get_mjd_array cfg).getD li 0 -
            (get_mjd_array cfg).getD (argmaxIdx (lightCurve cfg.T flux)) 0),
         some ((get_mjd_array cfg).getD li 0 - (get_mjd_array cfg).getD fi 0)) := by
      show (match (aboveHalfIdxs cfg flux).head?, (aboveHalfIdxs cfg flux).getLast? with
        | some fIdx, some lIdx =>
            (some ((get_mjd_array cfg).getD (argmaxIdx (lightCurve cfg.T flux)) 0 -
                (get_mjd_array cfg).getD fIdx 0),
             some ((get_mjd_array cfg).getD lIdx 0 -
                (get_mjd_array cfg).getD (argmaxIdx (lightCurve cfg.T flux)) 0),
             some ((get_mjd_array cfg).getD lIdx 0 - (get_mjd_array cfg).getD fIdx 0))
        | _, _ => (none, none, none)) = _
      rw [hf, hl]
    rw [extract_rise_eq, extract_decline_eq, extract_duration_eq, extract_lc_peak_eq, h1]
    exact ⟨rfl, rfl, rfl⟩

/-- C1 witness: on the scenario record the single above-half bin is index 3,
and rise/decline/duration evaluate through the theorem. -/
theorem rise_decline_duration_spec_witness :
    (3 < cfg45.T ∧
      listMax (lightCurve cfg45.T flux45) / 2 < (lightCurve cfg45.T flux45).getD 3 0) ∧
    (extract_summary_statistics cfg45 flux45 err45).rise_time_days =
      some ((get_mjd_array cfg45).getD
          (extract_summary_statistics cfg45 flux45 err45).lc_peak_mjd_idx 0 -
        (get_mjd_array cfg45).getD 3 0) := by
  have hT : (0 : Nat) < cfg45.T := by norm_num [cfg45]
  have h3 : (3 : Nat) < cfg45.T := by norm_num [cfg45]
  have hmax : listMax [(0 : ℚ), 0, 0, 10, 0] = 10 := by
    norm_num [listMax, max_def]
  have hgt : listMax (lightCurve cfg45.T flux45) / 2 <
      (lightCurve cfg45.T flux45).getD 3 0 := by
    rw [lightCurve45, hmax]; norm_num
  have hmin : ∀ s < 3,
      (lightCurve cfg45.T flux45).getD s 0 ≤ listMax (lightCurve cfg45.T flux45) / 2 := by
    intro s hs
    rw [lightCurve45, hmax]
    interval_cases s <;> norm_num
  have hend : ∀ s, 3 < s → s < cfg45.T →
      (lightCurve cfg45.T flux45).getD s 0 ≤ listMax (lightCurve cfg45.T flux45) / 2 := by
    intro s hs1 hs2
    have hs5 : s < 5 := by simpa [cfg45] using hs2
    rw [lightCurve45, hmax]
    interval_cases s <;> norm_num
  exact ⟨⟨h3, hgt⟩,
    ((rise_decline_duration_spec cfg45 flux45 err45 hT).2 3 3 h3 hgt hmin h3 hgt hend).1⟩

theorem peakSpectrum_length (cfg : Config) (flux : Grid) :
    (peakSpectrum cfg flux).length = flux.length := by
  simp [peakSpectrum]

theorem gridGet_eq_getElem (g : Grid) (w t : Nat) (hw : w < g.length)
    (ht : t < g[w].length) : gridGet g w t = g[w][t] := by
  unfold gridGet
  rw [List.getD_eq_getElem _ [] hw, List.getD_eq_getElem _ 0 ht]

theorem getElem_mem_flatten (g : Grid) (w t : Nat) (hw : w < g.length)
    (ht : t < g[w].length) : g[w][t] ∈ g.flatten :=
  List.mem_flatten.mpr ⟨g[w], List.getElem_mem hw, List.getElem_mem ht⟩

theorem mem_flatten_exists (g : Grid) (x : ℚ) (hx : x ∈ g.flatten) :
    ∃ w, ∃ hw : w < g.length, ∃ t, ∃ ht : t < g[w].length, x = g[w][t] := by
  obtain ⟨row, hrow, hxrow⟩ := List.mem_flatten.mp hx
  obtain ⟨w, hw, hweq⟩ := List.mem_iff_getElem.mp hrow
  subst hweq
  obtain ⟨t, ht, hteq⟩ := List.mem_iff_getElem.mp hxrow
  exact ⟨w, hw, t, ht, hteq.symm⟩

theorem snrGrid_length (flux flux_err : Grid) :
    (snrGrid flux flux_err).length = min flux.length flux_err.length := by
  simp [snrGrid]

theorem snrGrid_get (cfg : Config) (flux flux_err : Grid)
    (hf : WFGrid cfg flux) (he : WFGrid cfg flux_err) (w t : Nat)
    (hw : w < cfg.W) (ht : t < cfg.T) :
    gridGet (snrGrid flux flux_err) w t =
      if 0 < gridGet flux_err w t then gridGet flux w t / gridGet flux_err w t
      else 0 := by
  obtain ⟨hfW, hfrows⟩ := hf
  obtain ⟨heW, herows⟩ := he
  have hw1 : w < flux.length := by omega
  have hw2 : w < flux_err.length := by omega
  have hlf : flux[w].length = cfg.T := hfrows _ (List.getElem_mem hw1)
  have hle : flux_err[w].length = cfg.T := herows _ (List.getElem_mem hw2)
  have hsl : w < (snrGrid flux flux_err).length := by
    rw [snrGrid_length]; omega
  have hrow : (snrGrid flux flux_err)[w] =
      List.zipWith (fun f e => if 0 < e then f / e else 0) flux[w] flux_err[w] := by
    simp [snrGrid]
  have htr : t < (snrGrid flux flux_err)[w].length := by
    rw [hrow, List.length_zipWith, hlf, hle, Nat.min_self]; exact ht
  rw [gridGet_eq_getElem _ w t hsl htr,
    gridGet_eq_getElem flux w t hw1 (by rw [hlf]; exact ht),
    gridGet_eq_getElem flux_err w t hw2 (by rw [hle]; exact ht)]
  simp only [snrGrid, List.getElem_zipWith]

/-- C10: all three argmax-derived indices are deterministic first-of-the-
maximum positions: the row-major flat index of the flux peak, the light-curve
peak time index, and the peak-spectrum wavelength index each attain the
respective maximum while every earlier position is strictly below it. -/
theorem argmax_first_tiebreak (cfg : Config) (flux flux_err : Grid)
    (hW : 0 < cfg.W) (hT : 0 < cfg.T) (hf : WFGrid cfg flux) :
    ((extract_summary_statistics cfg flux flux_err).peak_flux_wavelength_idx * cfg.T +
        (extract_summary_statistics cfg flux flux_err).peak_flux_mjd_idx <
        flux.flatten.length ∧
      flux.flatten.getD
        ((extract_summary_statistics cfg flux flux_err).peak_flux_wavelength_idx * cfg.T +
          (extract_summary_statistics cfg flux flux_err).peak_flux_mjd_idx) 0 =
        listMax flux.flatten ∧
      ∀ j < (extract_summary_statistics cfg flux flux_err).peak_flux_wavelength_idx * cfg.T +
          (extract_summary_statistics cfg flux flux_err).peak_flux_mjd_idx,
        flux.flatten.getD j 0 < listMax flux.flatten) ∧
    ((extract_summary_statistics cfg flux flux_err).lc_peak_mjd_idx < cfg.T ∧
      (lightCurve cfg.T flux).getD
        (extract_summary_statistics cfg flux flux_err).lc_peak_mjd_idx 0 =
        listMax (lightCurve cfg.T flux) ∧
      ∀ j < (extract_summary_statistics cfg flux flux_err).lc_peak_mjd_idx,
        (lightCurve cfg.T flux).getD j 0 < listMax (lightCurve cfg.T flux)) ∧
    ((extract_summary_statistics cfg flux flux_err).spectrum_peak_wavelength_idx < cfg.W ∧
      (peakSpectrum cfg flux).getD
        (extract_summary_statistics cfg flux flux_err).spectrum_peak_wavelength_idx 0 =
        listMax (peakSpectrum cfg flux) ∧
      ∀ j < (extract_summary_statistics cfg flux flux_err).spectrum_peak_wavelength_idx,
        (peakSpectrum cfg flux).getD j 0 < listMax (peakSpectrum cfg flux)) := by
  refine ⟨?_, ?_, ?_⟩
  · rw [extract_peak_w_eq, extract_peak_t_eq]
    have hrecon : argmaxIdx flux.flatten / cfg.T * cfg.T + argmaxIdx flux.flatten % cfg.T =
        argmaxIdx flux.flatten := by
      rw [Nat.mul_comm]
      exact Nat.div_add_mod (argmaxIdx flux.flatten) cfg.T
    rw [hrecon]
    have hlen : flux.flatten.length = cfg.W * cfg.T := WFGrid.flatten_length cfg flux hf
    have hne : flux.flatten ≠ [] := by
      refine List.length_pos.mp ?_
      rw [hlen]
      exact Nat.mul_pos hW hT
    exact argmaxIdx_spec flux.flatten hne
  · rw [extract_lc_peak_eq]
    have hne := lightCurve_ne_nil cfg flux hT
    have hspec := argmaxIdx_spec (lightCurve cfg.T flux) hne
    refine ⟨?_, hspec.2.1, hspec.2.2⟩
    have := hspec.1
    rwa [lightCurve_length] at this
  · rw [extract_spectrum_peak_eq]
    have hlen : (peakSpectrum cfg flux).length = cfg.W := by
      rw [peakSpectrum_length, hf.1]
    have hne : peakSpectrum cfg flux ≠ [] := by
      refine List.length_pos.mp ?_
      rw [hlen]
      exact hW
    have hspec := argmaxIdx_spec (peakSpectrum cfg flux) hne
    refine ⟨?_, hspec.2.1, hspec.2.2⟩
    have := hspec.1
    rwa [hlen] at this

/-- C10 witness: the first-maximum property instantiated on the scenario
record. -/
theorem argmax_first_tiebreak_witness :
    (0 < cfg45.W ∧ 0 < cfg45.T ∧ WFGrid cfg45 flux45) ∧
    (extract_summary_statistics cfg45 flux45 err45).lc_peak_mjd_idx < cfg45.T :=
  ⟨⟨by decide, by decide, by decide⟩,
    ((argmax_first_tiebreak cfg45 flux45 err45 (by decide) (by decide)
      (by decide)).2.1).1⟩

/-- C2: the snr grid divides flux by error exactly where the error is
positive and is 0 elsewhere (so an all-zero error grid gives an all-zero snr
grid); snr_mean and snr_median aggregate only the strictly positive snr
entries and are 0 — not NaN — when there is none; snr_max ranges over the
whole snr grid, zero entries included; snr_peak is the snr entry at the flux
peak index. -/
theorem snr_spec (cfg : Config) (flux flux_err : Grid)
    (hW : 0 < cfg.W) (hT : 0 < cfg.T)
    (hf : WFGrid cfg flux) (he : WFGrid cfg flux_err) :
    (∀ w < cfg.W, ∀ t < cfg.T,
        (0 < gridGet flux_err w t →
          gridGet (snrGrid flux flux_err) w t * gridGet flux_err w t =
            gridGet flux w t) ∧
        (gridGet flux_err w t ≤ 0 → gridGet (snrGrid flux flux_err) w t = 0)) ∧
    ((∀ w < cfg.W, ∀ t < cfg.T, gridGet flux_err w t = 0) →
      ∀ w < cfg.W, ∀ t < cfg.T, gridGet (snrGrid flux flux_err) w t = 0) ∧
    (snrPositives flux flux_err = [] →
      (extract_summary_statistics cfg flux flux_err).snr_mean = 0 ∧
      (extract_summary_statistics cfg flux flux_err).snr_median = 0) ∧
    (snrPositives flux flux_err ≠ [] →
      (extract_summary_statistics cfg flux flux_err).snr_mean *
          ((snrPositives flux flux_err).length : ℚ) =
        (snrPositives flux flux_err).sum ∧
      (extract_summary_statistics cfg flux flux_err).snr_median =
        median (snrPositives flux flux_err)) ∧
    (∀ w < cfg.W, ∀ t < cfg.T,
      gridGet (snrGrid flux flux_err) w t ≤
        (extract_summary_statistics cfg flux flux_err).snr_max) ∧
    (∃ w, w < cfg.W ∧ ∃ t, t < cfg.T ∧
      (extract_summary_statistics cfg flux flux_err).snr_max =
        gridGet (snrGrid flux flux_err) w t) ∧
    (extract_summary_statistics cfg flux flux_err).snr_peak =
      gridGet (snrGrid flux flux_err)
        (extract_summary_statistics cfg flux flux_err).peak_flux_wavelength_idx
        (extract_summary_statistics cfg flux flux_err).peak_flux_mjd_idx := by
  have hsnrWF := snrGrid_WF cfg flux flux_err hf he
  refine ⟨?_, ?_, ?_, ?_, ?_, ?_, ?_⟩
  · intro w hw t ht
    rw [snrGrid_get cfg flux flux_err hf he w t hw ht]
    constructor
    · intro hpos
      rw [if_pos hpos]
      exact div_mul_cancel₀ _ (ne_of_gt hpos)
    · intro hnp
      rw [if_neg (not_lt.mpr hnp)]
  · intro hz w hw t ht
    rw [snrGrid_get cfg flux flux_err hf he w t hw ht, hz w hw t ht]
    simp
  · intro hemp
    rw [extract_snr_mean_eq, extract_snr_median_eq, if_neg (by simp [hemp]),
      if_neg (by simp [hemp])]
    exact ⟨rfl, rfl⟩
  · intro hne
    rw [extract_snr_mean_eq, extract_snr_median_eq, if_pos hne, if_pos hne]
    refine ⟨?_, rfl⟩
    have hlpos : (snrPositives flux flux_err).length ≠ 0 := by
      simpa [List.length_eq_zero] using hne
    rw [mean]
    exact div_mul_cancel₀ _ (by exact_mod_cast hlpos)
  · intro w hw t ht
    rw [extract_snr_max_eq]
    have hw1 : w < (snrGrid flux flux_err).length := by rw [hsnrWF.1]; exact hw
    have ht1 : t < (snrGrid flux flux_err)[w].length := by
      rw [hsnrWF.2 _ (List.getElem_mem hw1)]; exact ht
    rw [gridGet_eq_getElem _ w t hw1 ht1]
    exact le_listMax _ _ (getElem_mem_flatten _ w t hw1 ht1)
  · rw [extract_snr_max_eq]
    have hlen : (snrGrid flux flux_err).flatten.length = cfg.W * cfg.T :=
      WFGrid.flatten_length cfg _ hsnrWF
    have hne : (snrGrid flux flux_err).flatten ≠ [] := by
      refine List.length_pos.mp ?_
      rw [hlen]
      exact Nat.mul_pos hW hT
    obtain ⟨w, hw, t, ht, hx⟩ :=
      mem_flatten_exists _ _ (listMax_mem _ hne)
    refine ⟨w, by rw [← hsnrWF.1]; exact hw, t, ?_, ?_⟩
    · rw [← hsnrWF.2 _ (List.getElem_mem hw)]; exact ht
    · rw [gridGet_eq_getElem _ w t hw ht]; exact hx
  · rw [extract_snr_peak_eq, extract_peak_w_eq, extract_peak_t_eq]

/-- C2 witness: the snr clauses instantiated on the scenario record (whose
error grid is all zero, so every snr entry is 0 and the mean is 0). -/
theorem snr_spec_witness :
    (0 < cfg45.W ∧ 0 < cfg45.T ∧ WFGrid cfg45 flux45 ∧ WFGrid cfg45 err45) ∧
    ((∀ w < cfg45.W, ∀ t < cfg45.T, gridGet err45 w t = 0) →
      ∀ w < cfg45.W, ∀ t < cfg45.T, gridGet (snrGrid flux45 err45) w t = 0) :=
  ⟨⟨by decide, by decide, by decide, by decide⟩,
    (snr_spec cfg45 flux45 err45 (by decide) (by decide) (by decide)
      (by decide)).2.1⟩

theorem zipWith_mul_map (l : List Nat) (f g : Nat → ℚ) :
    List.zipWith (fun a b => a * b) (l.map f) (l.map g) =
      l.map (fun t => f t * g t) := by
  induction l with
  | nil => rfl
  | cons x xs ih => simp only [List.map_cons, List.zipWith_cons_cons, ih]

theorem zipWith_lc_band (cfg : Config) (flux : Grid) (g : Nat → ℚ) :
    List.zipWith (fun a b => a * b) (lightCurve cfg.T flux)
        ((List.range cfg.T).map g) =
      (List.range cfg.T).map
        (fun t => (lightCurve cfg.T flux).getD t 0 * g t) := by
  conv_lhs => rw [lightCurve]
  rw [zipWith_mul_map]
  refine List.map_congr_left (fun t ht => ?_)
  rw [lightCurve_getD cfg.T flux t (List.mem_range.mp ht)]

/-- C4: when both color bands contain at least one axis wavelength, the blue
and red totals are the light-curve-weighted band sums, and the color ratio
is blue/red when the red total is positive and NaN otherwise; when either
band is empty all three features are NaN. -/
theorem color_spec (cfg : Config) (flux flux_err : Grid) :
    ((∃ w, w < cfg.W ∧ 3000 ≤ (get_wavelength_array cfg).getD w 0 ∧
        (get_wavelength_array cfg).getD w 0 ≤ 5000) →
     (∃ w, w < cfg.W ∧ 6000 ≤ (get_wavelength_array cfg).getD w 0 ∧
        (get_wavelength_array cfg).getD w 0 ≤ 10000) →
      (extract_summary_statistics cfg flux flux_err).blue_flux =
        some (((List.range cfg.T).map (fun t =>
          (lightCurve cfg.T flux).getD t 0 *
            ((blueIdxs cfg).map (fun w => gridGet flux w t)).sum)).sum) ∧
      (extract_summary_statistics cfg flux flux_err).red_flux =
        some (((List.range cfg.T).map (fun t =>
          (lightCurve cfg.T flux).getD t 0 *
            ((redIdxs cfg).map (fun w => gridGet flux w t)).sum)).sum) ∧
      (0 < ((List.range cfg.T).map (fun t =>
          (lightCurve cfg.T flux).getD t 0 *
            ((redIdxs cfg).map (fun w => gridGet flux w t)).sum)).sum →
        SummaryInfo.color_ratio (extract_summary_statistics cfg flux flux_err) =
          some ((((List.range cfg.T).map (fun t =>
              (lightCurve cfg.T flux).getD t 0 *
                ((blueIdxs cfg).map (fun w => gridGet flux w t)).sum)).sum) /
            (((List.range cfg.T).map (fun t =>
              (lightCurve cfg.T flux).getD t 0 *
                ((redIdxs cfg).map (fun w => gridGet flux w t)).sum)).sum))) ∧
      (((List.range cfg.T).map (fun t =>
          (lightCurve cfg.T flux).getD t 0 *
            ((redIdxs cfg).map (fun w => gridGet flux w t)).sum)).sum ≤ 0 →
        SummaryInfo.color_ratio (extract_summary_statistics cfg flux flux_err) =
          none)) ∧
    (((∀ w, w < cfg.W → ¬(3000 ≤ (get_wavelength_array cfg).getD w 0 ∧
        (get_wavelength_array cfg).getD w 0 ≤ 5000)) ∨
      (∀ w, w < cfg.W → ¬(6000 ≤ (get_wavelength_array cfg).getD w 0 ∧
        (get_wavelength_array cfg).getD w 0 ≤ 10000))) →
      (extract_summary_statistics cfg flux flux_err).blue_flux = none ∧
      (extract_summary_statistics cfg flux flux_err).red_flux = none ∧
      SummaryInfo.color_ratio (extract_summary_statistics cfg flux flux_err) =
        none) := by
  constructor
  · intro hblue hred
    have hbne : blueIdxs cfg ≠ [] := by
      show (List.range cfg.W).filter
        (fun w => decide (3000 ≤ (get_wavelength_array cfg).getD w 0 ∧
          (get_wavelength_array cfg).getD w 0 ≤ 5000)) ≠ []
      intro hnil
      rw [List.filter_eq_nil_iff] at hnil
      obtain ⟨w, hw, h1, h2⟩ := hblue
      exact hnil w (List.mem_range.mpr hw) (decide_eq_true ⟨h1, h2⟩)
    have hrne : redIdxs cfg ≠ [] := by
      show (List.range cfg.W).filter
        (fun w => decide (6000 ≤ (get_wavelength_array cfg).getD w 0 ∧
          (get_wavelength_array cfg).getD w 0 ≤ 10000)) ≠ []
      intro hnil
      rw [List.filter_eq_nil_iff] at hnil
      obtain ⟨w, hw, h1, h2⟩ := hred
      exact hnil w (List.mem_range.mpr hw) (decide_eq_true ⟨h1, h2⟩)
    have hcond : blueIdxs cfg ≠ [] ∧ redIdxs cfg ≠ [] := ⟨hbne, hrne⟩
    have hcf : colorFeatures cfg flux =
        (some ((List.zipWith (fun a b => a * b) (lightCurve cfg.T flux)
            ((List.range cfg.T).map (fun t =>
              ((blueIdxs cfg).map (fun w => gridGet flux w t)).sum))).sum),
         some ((List.zipWith (fun a b => a * b) (lightCurve cfg.T flux)
            ((List.range cfg.T).map (fun t =>
              ((redIdxs cfg).map (fun w => gridGet flux w t)).sum))).sum),
         if 0 < (List.zipWith (fun a b => a * b) (lightCurve cfg.T flux)
            ((List.range cfg.T).map (fun t =>
              ((redIdxs cfg).map (fun w => gridGet flux w t)).sum))).sum
         then some ((List.zipWith (fun a b => a * b) (lightCurve cfg.T flux)
            ((List.range cfg.T).map (fun t =>
              ((blueIdxs cfg).map (fun w => gridGet flux w t)).sum))).sum /
           (List.zipWith (fun a b => a * b) (lightCurve cfg.T flux)
            ((List.range cfg.T).map (fun t =>
              ((redIdxs cfg).map (fun w => gridGet flux w t)).sum))).sum)
         else none) := by
      unfold colorFeatures
      rw [if_pos hcond]
    rw [extract_blue_eq, extract_red_eq, extract_color_eq, hcf,
      zipWith_lc_band cfg flux, zipWith_lc_band cfg flux]
    refine ⟨rfl, rfl, ?_, ?_⟩
    · intro hpos
      show (if 0 < ((List.range cfg.T).map (fun t =>
          (lightCurve cfg.T flux).getD t 0 *
            ((redIdxs cfg).map (fun w => gridGet flux w t)).sum)).sum
        then _ else none) = _
      rw [if_pos hpos]
    · intro hnp
      show (if 0 < ((List.range cfg.T).map (fun t =>
          (lightCurve cfg.T flux).getD t 0 *
            ((redIdxs cfg).map (fun w => gridGet flux w t)).sum)).sum
        then _ else none) = none
      rw [if_neg (not_lt.mpr hnp)]
  · intro hdeg
    have hcond : ¬(blueIdxs cfg ≠ [] ∧ redIdxs cfg ≠ []) := by
      rcases hdeg with hb | hr
      · intro hc
        apply hc.1
        show (List.range cfg.W).filter
          (fun w => decide (3000 ≤ (get_wavelength_array cfg).getD w 0 ∧
            (get_wavelength_array cfg).getD w 0 ≤ 5000)) = []
        refine filter_range_nil _ _ (fun s hs => ?_)
        simpa using hb s hs
      · intro hc
        apply hc.2
        show (List.range cfg.W).filter
          (fun w => decide (6000 ≤ (get_wavelength_array cfg).getD w 0 ∧
            (get_wavelength_array cfg).getD w 0 ≤ 10000)) = []
        refine filter_range_nil _ _ (fun s hs => ?_)
        simpa using hr s hs
    have hcf : colorFeatures cfg flux = (none, none, none) := by
      unfold colorFeatures
      rw [if_neg hcond]
    rw [extract_blue_eq, extract_red_eq, extract_color_eq, hcf]
    exact ⟨rfl, rfl, rfl⟩

/-- C4 witness: on the `W=4` axis both bands are inhabited (bin 0 at 3000 Å
is blue, bin 2 at 23200/3 Å is red), and the blue total evaluates through
the theorem. -/
theorem color_spec_witness :
    ((0 : Nat) < cfg45.W ∧ 3000 ≤ (get_wavelength_array cfg45).getD 0 0 ∧
      (get_wavelength_array cfg45).getD 0 0 ≤ 5000) ∧
    ((2 : Nat) < cfg45.W ∧ 6000 ≤ (get_wavelength_array cfg45).getD 2 0 ∧
      (get_wavelength_array cfg45).getD 2 0 ≤ 10000) ∧
    (extract_summary_statistics cfg45 flux45 err45).blue_flux =
      some (((List.range cfg45.T).map (fun t =>
        (lightCurve cfg45.T flux45).getD t 0 *
          ((blueIdxs cfg45).map (fun w => gridGet flux45 w t)).sum)).sum) := by
  have h4 : List.range 4 = [0, 1, 2, 3] := by decide
  have hwl : get_wavelength_array cfg45 = [3000, 16100/3, 23200/3, 10100] := by
    show linspace 3000 10100 4 = _
    rw [linspace, if_neg (by norm_num), h4]
    norm_num
  have hb : (0 : Nat) < cfg45.W ∧ 3000 ≤ (get_wavelength_array cfg45).getD 0 0 ∧
      (get_wavelength_array cfg45).getD 0 0 ≤ 5000 := by
    rw [hwl]; norm_num [cfg45]
  have hr : (2 : Nat) < cfg45.W ∧ 6000 ≤ (get_wavelength_array cfg45).getD 2 0 ∧
      (get_wavelength_array cfg45).getD 2 0 ≤ 10000 := by
    rw [hwl]; norm_num [cfg45]
  exact ⟨hb, hr,
    ((color_spec cfg45 flux45 err45).1 ⟨0, hb⟩ ⟨2, hr⟩).1⟩

theorem extract_coverage_eq (cfg : Config) (flux flux_err : Grid) :
    (extract_summary_statistics cfg flux flux_err).coverage_fraction =
      ((flux.flatten.filter (fun x => decide (0 < x))).length : ℚ) /
        ((cfg.W * cfg.T : Nat) : ℚ) := rfl

theorem listMax45 : listMax [(0 : ℚ), 0, 0, 10, 0] = 10 := by
  norm_num [listMax, max_def]

/-- C5: the `W=4, T=5` record with the single nonzero entry `flux[2][3]=10`
and all-zero errors has peak index (2,3), light curve `[0,0,0,10,0]`,
coverage 1/20, snr_mean 0, the set of bins above the half-max 5 exactly
`{3}`, and rise, decline and duration all 0 (not NaN). -/
theorem scenario_single_nonzero_bin :
    (extract_summary_statistics cfg45 flux45 err45).peak_flux_wavelength_idx = 2 ∧
    (extract_summary_statistics cfg45 flux45 err45).peak_flux_mjd_idx = 3 ∧
    lightCurve cfg45.T flux45 = [0, 0, 0, 10, 0] ∧
    (extract_summary_statistics cfg45 flux45 err45).coverage_fraction = 1 / 20 ∧
    (extract_summary_statistics cfg45 flux45 err45).snr_mean = 0 ∧
    aboveHalfIdxs cfg45 flux45 = [3] ∧
    (extract_summary_statistics cfg45 flux45 err45).rise_time_days = some 0 ∧
    (extract_summary_statistics cfg45 flux45 err45).decline_time_days = some 0 ∧
    (extract_summary_statistics cfg45 flux45 err45).duration_days = some 0 := by
  have h5 : List.range 5 = [0, 1, 2, 3, 4] := by decide
  have hcov : (extract_summary_statistics cfg45 flux45 err45).coverage_fraction =
      1 / 20 := by
    rw [extract_coverage_eq]
    have hnz : (flux45.flatten.filter (fun x => decide (0 < x))).length = 1 := by
      decide
    rw [hnz]
    norm_num [cfg45]
  have hsp : snrPositives flux45 err45 = [] := by decide
  have hmean : (extract_summary_statistics cfg45 flux45 err45).snr_mean = 0 := by
    rw [extract_snr_mean_eq, if_neg (by simp [hsp])]
  have habove : aboveHalfIdxs cfg45 flux45 = [3] := by
    show (List.range cfg45.T).filter
      (fun t => decide (listMax (lightCurve cfg45.T flux45) / 2 <
        (lightCurve cfg45.T flux45).getD t 0)) = [3]
    simp only [lightCurve45, listMax45]
    show (List.range 5).filter
      (fun t => decide ((10 : ℚ) / 2 < [(0 : ℚ), 0, 0, 10, 0].getD t 0)) = [3]
    rw [h5]
    norm_num [List.filter]
  have hpk : argmaxIdx (lightCurve cfg45.T flux45) = 3 := by
    rw [lightCurve45]; decide
  have hrdd : riseDeclineDuration cfg45 flux45 = (some 0, some 0, some 0) := by
    show (match (aboveHalfIdxs cfg45 flux45).head?,
        (aboveHalfIdxs cfg45 flux45).getLast? with
      | some fIdx, some lIdx =>
          (some ((get_mjd_array cfg45).getD (argmaxIdx (lightCurve cfg45.T flux45)) 0 -
              (get_mjd_array cfg45).getD fIdx 0),
           some ((get_mjd_array cfg45).getD lIdx 0 -
              (get_mjd_array cfg45).getD (argmaxIdx (lightCurve cfg45.T flux45)) 0),
           some ((get_mjd_array cfg45).getD lIdx 0 -
              (get_mjd_array cfg45).getD fIdx 0))
      | _, _ => (none, none, none)) = (some 0, some 0, some 0)
    rw [habove, hpk]
    show (some ((get_mjd_array cfg45).getD 3 0 - (get_mjd_array cfg45).getD 3 0),
      some ((get_mjd_array cfg45).getD 3 0 - (get_mjd_array cfg45).getD 3 0),
      some ((get_mjd_array cfg45).getD 3 0 - (get_mjd_array cfg45).getD 3 0)) =
      (some 0, some 0, some 0)
    norm_num
  refine ⟨by decide, by decide, lightCurve45, hcov, hmean, habove, ?_, ?_, ?_⟩
  · rw [extract_rise_eq, hrdd]
  · rw [extract_decline_eq, hrdd]
  · rw [extract_duration_eq, hrdd]

/-! The Batch Driver claims. -/

theorem exists_ok_of_isOk {ε α : Type} (e : Except ε α) (h : e.isOk = true) :
    ∃ d, e = Except.ok d := by
  cases e with
  | ok d => exact ⟨d, rfl⟩
  | error m => simp [Except.isOk, Except.toBool] at h

theorem processLoop_ok (cfg : Config) (f : List Nat → ℚ) (flc fsp : Bool)
    (l : List RawRecord)
    (hok : ∀ r ∈ l, (parse_tfrecord cfg f r).isOk = true) :
    ∃ s lcs sps, processLoop cfg f flc fsp l = Except.ok (s, lcs, sps) ∧
      s.length = l.length ∧
      (flc = true → lcs.length = l.length) ∧
      (fsp = true → sps.length = l.length) ∧
      ∀ i < l.length, ∃ d,
        parse_tfrecord cfg f (l.getD i defaultRawRecord) = Except.ok d ∧
        s.getD i (extract_summary_statistics cfg [] []) =
          extract_summary_statistics cfg d.flux d.flux_err := by
  induction l with
  | nil =>
      exact ⟨[], [], [], rfl, rfl, fun _ => rfl, fun _ => rfl,
        fun i hi => absurd hi (by simp)⟩
  | cons r rs ih =>
      obtain ⟨d, hd⟩ := exists_ok_of_isOk _ (hok r (List.mem_cons_self r rs))
      obtain ⟨s, lcs, sps, hml, hsl, hlcl, hspl, hidx⟩ :=
        ih (fun x hx => hok x (List.mem_cons_of_mem r hx))
      refine ⟨extract_summary_statistics cfg d.flux d.flux_err :: s,
        if flc then extract_lightcurve cfg d :: lcs else lcs,
        if fsp then extract_spectrum cfg d :: sps else sps, ?_, ?_, ?_, ?_, ?_⟩
      · simp only [processLoop]
        rw [hd, hml]
      · simp [hsl]
      · intro hflc
        rw [if_pos hflc]
        simp [hlcl hflc]
      · intro hfsp
        rw [if_pos hfsp]
        simp [hspl hfsp]
      · intro i hi
        cases i with
        | zero => exact ⟨d, by simpa using hd, by simp⟩
        | succ j =>
            have hj : j < rs.length := by simpa using hi
            obtain ⟨d', hd', hs'⟩ := hidx j hj
            exact ⟨d', by simpa using hd', by simpa using hs'⟩

theorem processLoop_append_error (cfg : Config) (f : List Nat → ℚ)
    (flc fsp : Bool) (l1 l2 : List RawRecord) (r : RawRecord)
    (hr : ∃ m, parse_tfrecord cfg f r = Except.error m) :
    ∃ m, processLoop cfg f flc fsp (l1 ++ r :: l2) = Except.error m := by
  induction l1 with
  | nil =>
      obtain ⟨m, hm⟩ := hr
      refine ⟨m, ?_⟩
      simp only [List.nil_append, processLoop]
      rw [hm]
  | cons p ps ih =>
      cases hp : parse_tfrecord cfg f p with
      | error m =>
          refine ⟨m, ?_⟩
          simp only [List.cons_append, processLoop]
          rw [hp]
      | ok d =>
          obtain ⟨m, hm⟩ := ih
          refine ⟨m, ?_⟩
          simp only [List.cons_append, processLoop, List.append_eq]
          rw [hp, hm]

/-- C6: a record with any missing required field, or whose payload length
differs from `W*T*2*8`, fails to decode (it is never truncated, padded or
coerced into a grid), and a batch containing such a record produces no
output table at all: the run stops with the decode error. -/
theorem malformed_record_fatal (cfg : Config) (f : List Nat → ℚ)
    (pre post : List RawRecord) (r : RawRecord) (flc fsp : Bool)
    (hbad : r.label = none ∨ r.image_raw = none ∨ r.id = none ∨ r.z = none ∨
      r.z_err = none ∨
      ∀ bytes, r.image_raw = some bytes → bytes.length ≠ cfg.W * cfg.T * 2 * 8) :
    (∃ msg, parse_tfrecord cfg f r = Except.error msg) ∧
    ∃ msg, process_tfrecord cfg f (pre ++ r :: post) flc fsp none =
      Except.error msg := by
  have hparse : ∃ msg, parse_tfrecord cfg f r = Except.error msg := by
    obtain ⟨lab, img, idv, zv, zev⟩ := r
    simp only at hbad
    unfold parse_tfrecord
    cases lab with
    | none => exact ⟨_, rfl⟩
    | some lv =>
        cases img with
        | none => exact ⟨_, rfl⟩
        | some bytes =>
            cases idv with
            | none => exact ⟨_, rfl⟩
            | some iv =>
                cases zv with
                | none => exact ⟨_, rfl⟩
                | some z =>
                    cases zev with
                    | none => exact ⟨_, rfl⟩
                    | some ze =>
                        have hlen : bytes.length ≠ cfg.W * cfg.T * 2 * 8 := by
                          rcases hbad with h | h | h | h | h | h
                          · exact absurd h (by simp)
                          · exact absurd h (by simp)
                          · exact absurd h (by simp)
                          · exact absurd h (by simp)
                          · exact absurd h (by simp)
                          · exact h bytes rfl
                        refine ⟨"image_raw payload length mismatch", ?_⟩
                        dsimp only
                        rw [if_neg hlen]
  exact ⟨hparse,
    processLoop_append_error cfg f flc fsp pre post r hparse⟩

/-- A raw record whose required `label` field is missing. -/
def badRaw : RawRecord :=
  { label := none, image_raw := some (List.replicate 320 0), id := some 7,
    z := some 0, z_err := some 0 }

/-- A raw record that decodes successfully under `cfg45` (320 = 4*5*2*8
payload bytes). -/
def goodRaw : RawRecord :=
  { label := some 1, image_raw := some (List.replicate 320 0), id := some 7,
    z := some 0, z_err := some 0 }

theorem malformed_record_fatal_witness :
    badRaw.label = none ∧
    ∃ msg, process_tfrecord cfg45 (fun _ => 0) ([goodRaw] ++ badRaw :: [])
      false false none = Except.error msg :=
  ⟨rfl, (malformed_record_fatal cfg45 (fun _ => 0) [goodRaw] [] badRaw
    false false (Or.inl rfl)).2⟩

/-- C7: a record cap of `0 < n` on a longer all-decodable source yields
exactly `n` summary rows (and, when the projections are enabled, exactly `n`
light-curve rows and `n` spectrum rows), and row `i` is the reduction of
source record `i` — source order is preserved. -/
theorem limit_cap_rows (cfg : Config) (f : List Nat → ℚ)
    (records : List RawRecord) (n : Nat) (flc fsp : Bool)
    (hn : 0 < n) (hlt : n < records.length)
    (hok : ∀ r ∈ records, (parse_tfrecord cfg f r).isOk = true) :
    ∃ s lcs sps,
      process_tfrecord cfg f records flc fsp (some n) = Except.ok (s, lcs, sps) ∧
      s.length = n ∧ (flc = true → lcs.length = n) ∧ (fsp = true → sps.length = n) ∧
      ∀ i < n, ∃ d,
        parse_tfrecord cfg f (records.getD i defaultRawRecord) = Except.ok d ∧
        s.getD i (extract_summary_statistics cfg [] []) =
          extract_summary_statistics cfg d.flux d.flux_err := by
  obtain ⟨m, rfl⟩ : ∃ m, n = m + 1 := ⟨n - 1, by omega⟩
  have htake : takeLimit (some (m + 1)) records = records.take (m + 1) := rfl
  have hlen : (records.take (m + 1)).length = m + 1 := by
    rw [List.length_take]
    omega
  obtain ⟨s, lcs, sps, hml, hsl, hlcl, hspl, hidx⟩ :=
    processLoop_ok cfg f flc fsp (records.take (m + 1))
      (fun x hx => hok x (List.take_subset (m + 1) records hx))
  refine ⟨s, lcs, sps, ?_, ?_, ?_, ?_, ?_⟩
  · show processLoop cfg f flc fsp (takeLimit (some (m + 1)) records) = _
    rw [htake, hml]
  · rw [hsl, hlen]
  · intro h; rw [hlcl h, hlen]
  · intro h; rw [hspl h, hlen]
  · intro i hi
    have hi' : i < (records.take (m + 1)).length := by rw [hlen]; exact hi
    obtain ⟨d, hd, hs⟩ := hidx i hi'
    refine ⟨d, ?_, hs⟩
    have hgetd : (records.take (m + 1)).getD i defaultRawRecord =
        records.getD i defaultRawRecord := by
      rw [List.getD_eq_getElem _ _ hi', List.getD_eq_getElem _ _ (by omega),
        List.getElem_take]
    rwa [hgetd] at hd

theorem limit_cap_rows_witness :
    (0 < 2 ∧ 2 < [goodRaw, goodRaw, goodRaw].length ∧
      ∀ r ∈ [goodRaw, goodRaw, goodRaw],
        (parse_tfrecord cfg45 (fun _ => 0) r).isOk = true) ∧
    ∃ s lcs sps,
      process_tfrecord cfg45 (fun _ => 0) [goodRaw, goodRaw, goodRaw] true true
        (some 2) = Except.ok (s, lcs, sps) ∧ s.length = 2 := by
  have h1 : (0 : Nat) < 2 := by decide
  have h2 : 2 < [goodRaw, goodRaw, goodRaw].length := by decide
  have h3 : ∀ r ∈ [goodRaw, goodRaw, goodRaw],
      (parse_tfrecord cfg45 (fun _ => 0) r).isOk = true := by decide
  obtain ⟨s, lcs, sps, hml, hsl, -, -, -⟩ :=
    limit_cap_rows cfg45 (fun _ => 0) [goodRaw, goodRaw, goodRaw] 2 true true
      h1 h2 h3
  exact ⟨⟨h1, h2, h3⟩, s, lcs, sps, hml, hsl⟩

/-- C9: a cap of 0 (or None) is no cap at all: the driver consumes the whole
source, so a zero cap yields one row per source record, never zero rows. -/
theorem zero_limit_no_cap (cfg : Config) (f : List Nat → ℚ)
    (records : List RawRecord) (flc fsp : Bool)
    (hok : ∀ r ∈ records, (parse_tfrecord cfg f r).isOk = true) :
    process_tfrecord cfg f records flc fsp (some 0) =
      process_tfrecord cfg f records flc fsp none ∧
    ∃ s lcs sps,
      process_tfrecord cfg f records flc fsp (some 0) = Except.ok (s, lcs, sps) ∧
      s.length = records.length := by
  refine ⟨rfl, ?_⟩
  obtain ⟨s, lcs, sps, hml, hsl, -, -, -⟩ := processLoop_ok cfg f flc fsp records hok
  exact ⟨s, lcs, sps, hml, hsl⟩

theorem zero_limit_no_cap_witness :
    (∀ r ∈ [goodRaw], (parse_tfrecord cfg45 (fun _ => 0) r).isOk = true) ∧
    ∃ s lcs sps,
      process_tfrecord cfg45 (fun _ => 0) [goodRaw] false false (some 0) =
        Except.ok (s, lcs, sps) ∧ s.length = 1 := by
  have h3 : ∀ r ∈ [goodRaw], (parse_tfrecord cfg45 (fun _ => 0) r).isOk = true := by
    decide
  obtain ⟨-, s, lcs, sps, hml, hsl⟩ :=
    zero_limit_no_cap cfg45 (fun _ => 0) [goodRaw] false false h3
  exact ⟨h3, s, lcs, sps, hml, hsl⟩

/-! The peak-phase window of the production configuration: the time bin
closest to -10 days is bin 40 and the one closest to +20 days is bin 70, so
the window spans 30 bins. -/

theorem wavelength_length (cfg : Config) :
    (get_wavelength_array cfg).length = cfg.W := linspace_length _ _ _

theorem mjd_length (cfg : Config) :
    (get_mjd_array cfg).length = cfg.T := linspace_length _ _ _

theorem mjd_scone_getElem (j : Nat) (hj : j < (get_mjd_array sconeConfig).length) :
    (get_mjd_array sconeConfig)[j] = -50 + (j : ℚ) * 180 / 179 := by
  have heq : get_mjd_array sconeConfig =
      (List.range 180).map
        (fun i : Nat => -50 + (i : ℚ) * (130 - (-50)) / ((180 : ℚ) - 1)) := by
    show linspace (-50) 130 180 = _
    rw [linspace, if_neg (by norm_num)]
    rfl
  rw [List.getElem_of_eq heq, List.getElem_map, List.getElem_range]
  norm_num

theorem absList_start_getD (j : Nat) (hj : j < 180) :
    (((get_mjd_array sconeConfig).map (fun x => |x - (-10)|)).getD j 0) =
      |(-50 + (j : ℚ) * 180 / 179) + 10| := by
  have hT180 : (get_mjd_array sconeConfig).length = 180 := by rw [mjd_length]; rfl
  have hjl : j < (get_mjd_array sconeConfig).length := by rw [hT180]; exact hj
  rw [List.getD_eq_getElem _ 0 (by rw [List.length_map]; exact hjl),
    List.getElem_map, mjd_scone_getElem j hjl]
  norm_num

theorem absList_end_getD (j : Nat) (hj : j < 180) :
    (((get_mjd_array sconeConfig).map (fun x => |x - 20|)).getD j 0) =
      |(-50 + (j : ℚ) * 180 / 179) - 20| := by
  have hT180 : (get_mjd_array sconeConfig).length = 180 := by rw [mjd_length]; rfl
  have hjl : j < (get_mjd_array sconeConfig).length := by rw [hT180]; exact hj
  rw [List.getD_eq_getElem _ 0 (by rw [List.length_map]; exact hjl),
    List.getElem_map, mjd_scone_getElem j hjl]

theorem peakStartIdx_scone : peakStartIdx sconeConfig = 40 := by
  unfold peakStartIdx
  have hlen : ((get_mjd_array sconeConfig).map (fun x => |x - (-10)|)).length = 180 := by
    rw [List.length_map, mjd_length]; rfl
  have hv40 : (((get_mjd_array sconeConfig).map (fun x => |x - (-10)|)).getD 40 0) =
      40 / 179 := by
    rw [absList_start_getD 40 (by norm_num)]
    push_cast
    rw [show (-50 + (40 : ℚ) * 180 / 179) + 10 = 40 / 179 by norm_num,
      abs_of_nonneg (by norm_num)]
  refine argminIdx_eq_of _ 40 (by rw [hlen]; norm_num) ?_ ?_
  · intro j hj
    have hj180 : j < 180 := by rw [hlen] at hj; exact hj
    rw [hv40, absList_start_getD j hj180]
    rcases le_or_lt j 39 with hc | hc
    · have hcq : (j : ℚ) ≤ 39 := by exact_mod_cast hc
      exact le_abs.mpr (Or.inr (by linarith))
    · have hcq : (40 : ℚ) ≤ (j : ℚ) := by exact_mod_cast hc
      exact le_abs.mpr (Or.inl (by linarith))
  · intro j hj
    rw [hv40, absList_start_getD j (by omega)]
    have hcq : (j : ℚ) ≤ 39 := by exact_mod_cast (by omega : j ≤ 39)
    exact lt_abs.mpr (Or.inr (by linarith))

theorem peakEndIdx_scone : peakEndIdx sconeConfig = 70 := by
  unfold peakEndIdx
  have hlen : ((get_mjd_array sconeConfig).map (fun x => |x - 20|)).length = 180 := by
    rw [List.length_map, mjd_length]; rfl
  have hv70 : (((get_mjd_array sconeConfig).map (fun x => |x - 20|)).getD 70 0) =
      70 / 179 := by
    rw [absList_end_getD 70 (by norm_num)]
    push_cast
    rw [show (-50 + (70 : ℚ) * 180 / 179) - 20 = 70 / 179 by norm_num,
      abs_of_nonneg (by norm_num)]
  refine argminIdx_eq_of _ 70 (by rw [hlen]; norm_num) ?_ ?_
  · intro j hj
    have hj180 : j < 180 := by rw [hlen] at hj; exact hj
    rw [hv70, absList_end_getD j hj180]
    rcases le_or_lt j 69 with hc | hc
    · have hcq : (j : ℚ) ≤ 69 := by exact_mod_cast hc
      exact le_abs.mpr (Or.inr (by linarith))
    · have hcq : (70 : ℚ) ≤ (j : ℚ) := by exact_mod_cast hc
      exact le_abs.mpr (Or.inl (by linarith))
  · intro j hj
    rw [hv70, absList_end_getD j (by omega)]
    have hcq : (j : ℚ) ≤ 69 := by exact_mod_cast (by omega : j ≤ 69)
    exact lt_abs.mpr (Or.inr (by linarith))

/-! Structure of the spectrum projection output. -/

theorem extract_spectrum_fst (cfg : Config) (d : ParsedRecord) :
    (extract_spectrum cfg d).1 = d.id := rfl

theorem extract_spectrum_len (cfg : Config) (d : ParsedRecord)
    (hf : WFGrid cfg d.flux) (he : WFGrid cfg d.flux_err) :
    (extract_spectrum cfg d).2.length = cfg.W := by
  simp only [extract_spectrum]
  rw [List.length_map, List.length_zip, List.length_zip, List.length_map,
    peakSpectrum_length, hf.1, he.1, wavelength_length, Nat.min_self, Nat.min_self]

theorem extract_spectrum_getD (cfg : Config) (d : ParsedRecord)
    (hf : WFGrid cfg d.flux) (he : WFGrid cfg d.flux_err)
    (i : Nat) (hi : i < cfg.W) :
    (extract_spectrum cfg d).2.getD i (0, 0, 0) =
      ((get_wavelength_array cfg).getD i 0,
       mean (((d.flux.getD i []).drop (peakStartIdx cfg)).take
         (peakEndIdx cfg - peakStartIdx cfg)),
       Real.sqrt ((mean ((((d.flux_err.getD i []).drop (peakStartIdx cfg)).take
           (peakEndIdx cfg - peakStartIdx cfg)).map (fun x => x ^ 2)) : ℚ) : ℝ)) := by
  have hw : i < (get_wavelength_array cfg).length := by rw [wavelength_length]; exact hi
  have hfl : i < d.flux.length := by rw [hf.1]; exact hi
  have hel : i < d.flux_err.length := by rw [he.1]; exact hi
  have hsl : i < (peakSpectrum cfg d.flux).length := by
    rw [peakSpectrum_length]; exact hfl
  have helm : i < (d.flux_err.map (fun row =>
      Real.sqrt ((mean (((row.drop (peakStartIdx cfg)).take
        (peakEndIdx cfg - peakStartIdx cfg)).map (fun x => x ^ 2)) : ℚ) : ℝ))).length := by
    rw [List.length_map]; exact hel
  have hz2 : i < ((peakSpectrum cfg d.flux).zip
      (d.flux_err.map (fun row =>
        Real.sqrt ((mean (((row.drop (peakStartIdx cfg)).take
          (peakEndIdx cfg - peakStartIdx cfg)).map (fun x => x ^ 2)) : ℚ) : ℝ)))).length := by
    rw [List.length_zip]
    exact lt_min hsl helm
  have hz1 : i < ((get_wavelength_array cfg).zip ((peakSpectrum cfg d.flux).zip
      (d.flux_err.map (fun row =>
        Real.sqrt ((mean (((row.drop (peakStartIdx cfg)).take
          (peakEndIdx cfg - peakStartIdx cfg)).map (fun x => x ^ 2)) : ℚ) : ℝ))))).length := by
    rw [List.length_zip]
    exact lt_min hw hz2
  simp only [extract_spectrum]
  rw [List.getD_eq_getElem _ _ (by rw [List.length_map]; exact hz1),
    List.getElem_map, List.getElem_zip, List.getElem_zip]
  simp only [Prod.mk.injEq]
  refine ⟨?_, ?_, ?_⟩
  · rw [List.getD_eq_getElem _ _ hw]
  · rw [List.getD_eq_getElem d.flux [] hfl]
    simp [peakSpectrum]
  · rw [List.getD_eq_getElem d.flux_err [] hel]
    simp

/-- C8, corrected: the spectrum projection emits, keyed by the record id,
one triple per wavelength bin pairing the wavelength with the peak-phase
average flux and the square root of the MEAN of the squared flux errors over
the same window — a root-mean-square, not the quadrature sum the spec
describes. -/
theorem spectrum_projection_rms (cfg : Config) (d : ParsedRecord)
    (hf : WFGrid cfg d.flux) (he : WFGrid cfg d.flux_err) :
    (extract_spectrum cfg d).1 = d.id ∧
    (extract_spectrum cfg d).2.length = cfg.W ∧
    ∀ i < cfg.W,
      (extract_spectrum cfg d).2.getD i (0, 0, 0) =
        ((get_wavelength_array cfg).getD i 0,
         mean (((d.flux.getD i []).drop (peakStartIdx cfg)).take
           (peakEndIdx cfg - peakStartIdx cfg)),
         Real.sqrt ((mean ((((d.flux_err.getD i []).drop (peakStartIdx cfg)).take
             (peakEndIdx cfg - peakStartIdx cfg)).map (fun x => x ^ 2)) : ℚ) : ℝ)) :=
  ⟨extract_spectrum_fst cfg d, extract_spectrum_len cfg d hf he,
    fun i hi => extract_spectrum_getD cfg d hf he i hi⟩

/-! Concrete 32x180 record with all-one errors for the C8 counterexample. -/

def fluxZeroScone : Grid := List.replicate 32 (List.replicate 180 0)

def errOnesScone : Grid := List.replicate 32 (List.replicate 180 1)

def recScone : ParsedRecord :=
  { id := 0, label := 0, z := 0, z_err := 0,
    flux := fluxZeroScone, flux_err := errOnesScone }

theorem fluxZeroScone_WF : WFGrid sconeConfig fluxZeroScone := by
  refine ⟨by rw [show fluxZeroScone = List.replicate 32 (List.replicate 180 0) from rfl,
    List.length_replicate]; rfl, fun row hrow => ?_⟩
  have heq := List.eq_of_mem_replicate
    (show row ∈ List.replicate 32 (List.replicate 180 (0 : ℚ)) from hrow)
  rw [heq, List.length_replicate]
  rfl

theorem errOnesScone_WF : WFGrid sconeConfig errOnesScone := by
  refine ⟨by rw [show errOnesScone = List.replicate 32 (List.replicate 180 1) from rfl,
    List.length_replicate]; rfl, fun row hrow => ?_⟩
  have heq := List.eq_of_mem_replicate
    (show row ∈ List.replicate 32 (List.replicate 180 (1 : ℚ)) from hrow)
  rw [heq, List.length_replicate]
  rfl

/-- C8 counterexample: with every flux error equal to 1 the peak window
holds 30 bins, so the claimed quadrature sum under the root is 30 while the
code emits `sqrt(mean) = sqrt 1 = 1`; the emitted error is NOT the square
root of the sum of the squared errors over the window. -/
theorem spectrum_err_not_quadrature_sum :
    ((extract_spectrum sconeConfig recScone).2.getD 0 (0, 0, 0)).2.2 ≠
      Real.sqrt ((((((recScone.flux_err.getD 0 []).drop
            (peakStartIdx sconeConfig)).take
          (peakEndIdx sconeConfig - peakStartIdx sconeConfig)).map
        (fun x => x ^ 2)).sum : ℚ) : ℝ) := by
  have hrow : recScone.flux_err.getD 0 [] = List.replicate 180 (1 : ℚ) := rfl
  have hslice : ((recScone.flux_err.getD 0 []).drop (peakStartIdx sconeConfig)).take
      (peakEndIdx sconeConfig - peakStartIdx sconeConfig) =
      List.replicate 30 (1 : ℚ) := by
    rw [hrow, peakStartIdx_scone, peakEndIdx_scone, List.drop_replicate,
      List.take_replicate]
    norm_num
  have hsq : (List.replicate 30 (1 : ℚ)).map (fun x => x ^ 2) =
      List.replicate 30 (1 : ℚ) := by
    rw [List.map_replicate]
    norm_num
  have hcomp : ((extract_spectrum sconeConfig recScone).2.getD 0 (0, 0, 0)).2.2 = 1 := by
    rw [extract_spectrum_getD sconeConfig recScone fluxZeroScone_WF errOnesScone_WF 0
      (by decide)]
    show Real.sqrt ((mean ((((recScone.flux_err.getD 0 []).drop
        (peakStartIdx sconeConfig)).take
        (peakEndIdx sconeConfig - peakStartIdx sconeConfig)).map
      (fun x => x ^ 2)) : ℚ) : ℝ) = 1
    rw [hslice, hsq]
    have hmean : mean (List.replicate 30 (1 : ℚ)) = 1 := by
      rw [mean, List.sum_replicate, List.length_replicate]
      norm_num
    rw [hmean, show (((1 : ℚ)) : ℝ) = (1 : ℝ) by norm_num, Real.sqrt_one]
  have hsum : ((((recScone.flux_err.getD 0 []).drop (peakStartIdx sconeConfig)).take
      (peakEndIdx sconeConfig - peakStartIdx sconeConfig)).map
      (fun x => x ^ 2)).sum = (30 : ℚ) := by
    rw [hslice, hsq, List.sum_replicate]
    norm_num
  rw [hcomp, hsum]
  intro hcontra
  rw [show (((30 : ℚ)) : ℝ) = (30 : ℝ) by norm_num] at hcontra
  have h30 := Real.sqrt_eq_one.mp hcontra.symm
  norm_num at h30

/-- C8 witness: the amended per-bin description instantiated on the concrete
32x180 record. -/
theorem spectrum_projection_rms_witness :
    (WFGrid sconeConfig recScone.flux ∧ WFGrid sconeConfig recScone.flux_err) ∧
    (extract_spectrum sconeConfig recScone).2.length = sconeConfig.W :=
  ⟨⟨fluxZeroScone_WF, errOnesScone_WF⟩,
    (spectrum_projection_rms sconeConfig recScone fluxZeroScone_WF
      errOnesScone_WF).2.1⟩

end SconeTools
